import Mathlib

/-!
# Magnetometer calibration (`Util_MagCalibration.cpp`)

A shallow embedding of `OVR::Util::MagCalibration` and the properties of its
sample-acceptance policy, its four-sample state machine and its sphere fit.

The first part is in exact arithmetic: the scalar type `α` is an arbitrary
linear ordered field (the rationals for evaluation, the reals for the geometric
statements) in place of `float`.  A quotient whose divisor is zero has no value
in exact arithmetic and is modelled as `none`:

* in `CalculateSphereCenter` the divisor is `m11`, guarded by
  `OVR_ASSERT(m11 != 0.0f)`; a failed assertion is fatal and is the `none` result;
* in `Vector3.Normalize` the divisor is the length of the vector; the C++ code
  produces a NaN there, and every ordered comparison with it is false
  (`exceeds none t = false`).

The second part (section "Rounded arithmetic") repeats the operations with every
`float` operation rounded by a function `r`, which is the identity for exact
arithmetic and `fl32` for binary32, and with `OVR_ASSERT` expanding to nothing.
The statements about the state machine and about the comparisons of the
acceptance test are proved there for every `r`; the places where rounding
changes a decision are evaluated with `fl32`.

The math primitives (`Vector3f`, `Quatf`, `Matrix4f`), the class declaration and
the `SensorFusion` collaborator are declared outside the translated file; they
are modelled from the specification or taken as parameters, as stated at each
definition.
-/

namespace OVR.Util

/-! ## Math primitives -/

/-- Modelled from the spec: `Vector3f`, a 3D vector of the given math library. -/
structure Vector3 (α : Type) where
  x : α
  y : α
  z : α
deriving DecidableEq, Repr

namespace Vector3

variable {α : Type} [LinearOrderedField α]

/-- Modelled from the spec: `Vector3f::operator-`, the componentwise difference. -/
def sub (a b : Vector3 α) : Vector3 α := ⟨a.x - b.x, a.y - b.y, a.z - b.z⟩

instance : Sub (Vector3 α) := ⟨sub⟩

/-- Modelled from the spec: `Vector3f::operator+`, the componentwise sum (used
only to state properties; the translated file does not add vectors). -/
def add (a b : Vector3 α) : Vector3 α := ⟨a.x + b.x, a.y + b.y, a.z + b.z⟩

instance : Add (Vector3 α) := ⟨add⟩

/-- Modelled from the spec: `Vector3f::operator*` on two vectors, the dot product. -/
def Dot (a b : Vector3 α) : α := a.x * b.x + a.y * b.y + a.z * b.z

/-- Modelled from the spec: `Vector3f::Cross`, the cross product. -/
def Cross (a b : Vector3 α) : Vector3 α :=
  ⟨a.y * b.z - a.z * b.y, a.z * b.x - a.x * b.z, a.x * b.y - a.y * b.x⟩

/-- Modelled from the spec: `Vector3f::LengthSq`, the squared Euclidean norm. -/
def LengthSq (a : Vector3 α) : α := a.x * a.x + a.y * a.y + a.z * a.z

/-- Modelled from the spec: `Vector3f::Length`, the Euclidean norm; the square
root of the math library is the parameter `sqrt`. -/
def Length (sqrt : α → α) (a : Vector3 α) : α := sqrt a.LengthSq

/-- Modelled from the spec: `Vector3f::Normalize`, the vector divided by its
length; undefined (`none`) when the length is zero. -/
def Normalize (sqrt : α → α) (a : Vector3 α) : Option (Vector3 α) :=
  let l := a.Length sqrt
  if l = 0 then none else some ⟨a.x / l, a.y / l, a.z / l⟩

end Vector3

/-- Modelled from the spec: `Matrix4f`, a 4×4 matrix with entries `M[row][column]`. -/
structure Matrix4 (α : Type) where
  M : Fin 4 → Fin 4 → α

namespace Matrix4

variable {α : Type} [LinearOrderedField α]

/-- Modelled from the spec: the default-constructed `Matrix4f`, the identity
(the base of the translation-style correction). -/
def identity : Matrix4 α := ⟨fun i j => if i = j then 1 else 0⟩

/-- The assignment `A.M[i][j] = v`. -/
def set (A : Matrix4 α) (i j : Fin 4) (v : α) : Matrix4 α :=
  ⟨fun r c => if r = i ∧ c = j then v else A.M r c⟩

/-- The 3×3 minor of `A` on rows `r0 r1 r2` and columns `c0 c1 c2`. -/
def SubDet (A : Matrix4 α) (r0 r1 r2 c0 c1 c2 : Fin 4) : α :=
  A.M r0 c0 * (A.M r1 c1 * A.M r2 c2 - A.M r1 c2 * A.M r2 c1)
    - A.M r0 c1 * (A.M r1 c0 * A.M r2 c2 - A.M r1 c2 * A.M r2 c0)
    + A.M r0 c2 * (A.M r1 c0 * A.M r2 c1 - A.M r1 c1 * A.M r2 c0)

/-- Modelled from the spec: `Matrix4f::Determinant`, the determinant of the 4×4
matrix, written as the cofactor expansion along the first row. -/
def Determinant (A : Matrix4 α) : α :=
  A.M 0 0 * A.SubDet 1 2 3 1 2 3
    - A.M 0 1 * A.SubDet 1 2 3 0 2 3
    + A.M 0 2 * A.SubDet 1 2 3 0 1 3
    - A.M 0 3 * A.SubDet 1 2 3 0 1 2

end Matrix4

/-! ## Geometry kernel -/

section Geometry

variable {α : Type} [LinearOrderedField α]

/-- The local array `p[4]` of `CalculateSphereCenter`. -/
def pointArray (p1 p2 p3 p4 : Vector3 α) : Fin 4 → Vector3 α
  | 0 => p1
  | 1 => p2
  | 2 => p3
  | 3 => p4

/-- One filling loop of `CalculateSphereCenter`: row `i` of the matrix is
`[c0 p[i], c1 p[i], c2 p[i], 1]`. -/
def fillRows (c0 c1 c2 : Vector3 α → α) (p : Fin 4 → Vector3 α) : Matrix4 α :=
  ⟨fun i j =>
    match j with
    | 0 => c0 (p i)
    | 1 => c1 (p i)
    | 2 => c2 (p i)
    | 3 => 1⟩

/-- The entry `p[i].x*p[i].x + p[i].y*p[i].y + p[i].z*p[i].z` of the last three loops. -/
def sqNorm (v : Vector3 α) : α := v.x * v.x + v.y * v.y + v.z * v.z

/-- The determinant `m11` of `CalculateSphereCenter`: rows `[x, y, z, 1]`. -/
def m11 (p1 p2 p3 p4 : Vector3 α) : α :=
  (fillRows Vector3.x Vector3.y Vector3.z (pointArray p1 p2 p3 p4)).Determinant

/-- The determinant `m12` of `CalculateSphereCenter`: rows `[x²+y²+z², y, z, 1]`. -/
def m12 (p1 p2 p3 p4 : Vector3 α) : α :=
  (fillRows sqNorm Vector3.y Vector3.z (pointArray p1 p2 p3 p4)).Determinant

/-- The determinant `m13` of `CalculateSphereCenter`: rows `[x²+y²+z², x, z, 1]`. -/
def m13 (p1 p2 p3 p4 : Vector3 α) : α :=
  (fillRows sqNorm Vector3.x Vector3.z (pointArray p1 p2 p3 p4)).Determinant

/-- The determinant `m14` of `CalculateSphereCenter`: rows `[x²+y²+z², x, y, 1]`. -/
def m14 (p1 p2 p3 p4 : Vector3 α) : α :=
  (fillRows sqNorm Vector3.x Vector3.y (pointArray p1 p2 p3 p4)).Determinant

/-- `MagCalibration::CalculateSphereCenter`: the center of the sphere through
`p1, p2, p3, p4`.  The result is `none` when `OVR_ASSERT(m11 != 0.0f)` fails,
which is exactly when the quotient `0.5f / m11` is undefined. -/
def CalculateSphereCenter (p1 p2 p3 p4 : Vector3 α) : Option (Vector3 α) :=
  if m11 p1 p2 p3 p4 = 0 then none
  else
    let c := (1 / 2) / m11 p1 p2 p3 p4
    some ⟨c * m12 p1 p2 p3 p4, -c * m13 p1 p2 p3 p4, c * m14 p1 p2 p3 p4⟩

/-- `MagCalibration::PointToPlaneDistance`: the distance from `p4` to the plane
through `p1, p2, p3`; `none` when the plane normal cannot be normalized. -/
def PointToPlaneDistance (sqrt : α → α) (p1 p2 p3 p4 : Vector3 α) : Option α :=
  let v1 := p1 - p2
  let v2 := p1 - p3
  let planeNormal := v1.Cross v2
  match planeNormal.Normalize sqrt with
  | none => none
  | some n => some |n.Dot p4 - n.Dot p1|

/-- The squared distance between two points, `(a - b).LengthSq()`. -/
def distSq (a b : Vector3 α) : α := (a - b).LengthSq

end Geometry

/-! ## Calibrator state and collaborator -/

/-- The operations of the math library that the calibrator uses and that are
defined outside the translated file, taken as parameters: the square root behind
`Vector3f::Length` and the proximity measure `Quatf::DistanceSq` on the
orientation type `Q`. -/
structure MathLib (α Q : Type) where
  sqrt : α → α
  DistanceSq : Q → Q → α

/-- Modelled from the spec: the calibration state enum `MagStatus`
(`Uncalibrated`, `AutoCalibrating`, `ManuallyCalibrating`, `Calibrated`). -/
inductive MagStatus where
  | Mag_Uninitialized
  | Mag_AutoCalibrating
  | Mag_ManuallyCalibrating
  | Mag_Calibrated
deriving DecidableEq, Repr

open MagStatus

/-- A C array `T a[4]`, the type of `MagSamples` and `QuatSamples`. -/
structure Array4 (T : Type) where
  at0 : T
  at1 : T
  at2 : T
  at3 : T

namespace Array4

variable {T : Type}

/-- The read `a[i]` for an index inside the array. -/
def get (a : Array4 T) : Fin 4 → T
  | 0 => a.at0
  | 1 => a.at1
  | 2 => a.at2
  | 3 => a.at3

/-- The write `a[i] = v`; an index outside `0..3` is outside the array and has
no defined result. -/
def set (a : Array4 T) (i : Nat) (v : T) : Option (Array4 T) :=
  match i with
  | 0 => some { a with at0 := v }
  | 1 => some { a with at1 := v }
  | 2 => some { a with at2 := v }
  | 3 => some { a with at3 := v }
  | _ => none

/-- The array whose slot `i` holds what slot `σ i` of `a` holds: the same
samples in another order. -/
def permute (σ : Equiv.Perm (Fin 4)) (a : Array4 T) : Array4 T :=
  ⟨a.get (σ 0), a.get (σ 1), a.get (σ 2), a.get (σ 3)⟩

end Array4

/-- A call received by the `SensorFusion` collaborator. -/
inductive SFCall (α : Type) where
  | ClearMagCalibration
  | SetMagCalibration (m : Matrix4 α)

/-- Modelled from the spec: the `SensorFusion` collaborator, reduced to its
interface: the current orientation and magnetometer readings, the installed
magnetic calibration, and the record of the calibration calls it received
(most recent first). -/
structure SensorFusion (α Q : Type) where
  Orientation : Q
  Magnetometer : Vector3 α
  MagCalibrationMatrix : Matrix4 α
  Calls : List (SFCall α)

namespace SensorFusion

variable {α : Type} [LinearOrderedField α] {Q : Type}

/-- Modelled from the spec: `GetOrientation`, the current orientation estimate. -/
def GetOrientation (sf : SensorFusion α Q) : Q := sf.Orientation

/-- Modelled from the spec: `GetMagnetometer`, the current raw field reading. -/
def GetMagnetometer (sf : SensorFusion α Q) : Vector3 α := sf.Magnetometer

/-- Modelled from the spec: `ClearMagCalibration` resets the stored bias to identity. -/
def ClearMagCalibration (sf : SensorFusion α Q) : SensorFusion α Q :=
  { sf with MagCalibrationMatrix := Matrix4.identity,
            Calls := SFCall.ClearMagCalibration :: sf.Calls }

/-- Modelled from the spec: `SetMagCalibration` installs the given transform. -/
def SetMagCalibration (sf : SensorFusion α Q) (m : Matrix4 α) : SensorFusion α Q :=
  { sf with MagCalibrationMatrix := m, Calls := SFCall.SetMagCalibration m :: sf.Calls }

/-- The collaborator after its sensors produced the readings `q` and `m`. -/
def withReadings (sf : SensorFusion α Q) (q : Q) (m : Vector3 α) : SensorFusion α Q :=
  { sf with Orientation := q, Magnetometer := m }

end SensorFusion

/-- The data members of `MagCalibration` that the translated file reads or
writes; `SampleCount` is an unsigned counter. -/
structure MagCalibration (α Q : Type) where
  MagCenter : Vector3 α
  SampleCount : Nat
  Status : MagStatus
  MinMagDistance : α
  MinMagDistanceSq : α
  MinQuatDistanceSq : α
  MagSamples : Array4 (Vector3 α)
  QuatSamples : Array4 Q

/-! ## Operations of the calibrator -/

section Calibrator

variable {α : Type} [LinearOrderedField α] {Q : Type}

/-- The comparison `d > t` for a distance that may be undefined: an undefined
distance exceeds nothing. -/
def exceeds : Option α → α → Bool
  | some d, t => decide (d > t)
  | none, _ => false

/-- The coplanarity gate of the `case 3` branch of `IsAcceptableSample`: the
disjunction of its four plane-distance tests, for the stored fields `a`, `b`,
`c`, the candidate `m` and the threshold `t`. -/
def planeGate (sqrt : α → α) (a b c m : Vector3 α) (t : α) : Bool :=
  exceeds (PointToPlaneDistance sqrt a b c m) t ||
    exceeds (PointToPlaneDistance sqrt b c m a) t ||
    exceeds (PointToPlaneDistance sqrt c m a b) t ||
    exceeds (PointToPlaneDistance sqrt m a b c) t

/-- `MagCalibration::BeginAutoCalibration`. -/
def BeginAutoCalibration (s : MagCalibration α Q) (sf : SensorFusion α Q) :
    MagCalibration α Q × SensorFusion α Q :=
  let s1 := { s with Status := Mag_AutoCalibrating }
  let sf1 := sf.ClearMagCalibration
  ({ s1 with SampleCount := 0 }, sf1)

/-- `MagCalibration::BeginManualCalibration`. -/
def BeginManualCalibration (s : MagCalibration α Q) (sf : SensorFusion α Q) :
    MagCalibration α Q × SensorFusion α Q :=
  let s1 := { s with Status := Mag_ManuallyCalibrating }
  let sf1 := sf.ClearMagCalibration
  ({ s1 with SampleCount := 0 }, sf1)

/-- `MagCalibration::IsAcceptableSample`. -/
def IsAcceptableSample (L : MathLib α Q) (s : MagCalibration α Q) (q : Q) (m : Vector3 α) :
    Bool :=
  match s.SampleCount with
  | 0 => true
  | 1 =>
    decide (L.DistanceSq q s.QuatSamples.at0 > s.MinQuatDistanceSq) &&
    decide ((m - s.MagSamples.at0).LengthSq > s.MinMagDistanceSq)
  | 2 =>
    decide (L.DistanceSq q s.QuatSamples.at0 > s.MinQuatDistanceSq) &&
    decide (L.DistanceSq q s.QuatSamples.at1 > s.MinQuatDistanceSq) &&
    decide ((m - s.MagSamples.at0).LengthSq > s.MinMagDistanceSq) &&
    decide ((m - s.MagSamples.at1).LengthSq > s.MinMagDistanceSq)
  | 3 =>
    decide (L.DistanceSq q s.QuatSamples.at0 > s.MinQuatDistanceSq) &&
    decide (L.DistanceSq q s.QuatSamples.at1 > s.MinQuatDistanceSq) &&
    decide (L.DistanceSq q s.QuatSamples.at2 > s.MinQuatDistanceSq) &&
    (exceeds (PointToPlaneDistance L.sqrt s.MagSamples.at0 s.MagSamples.at1 s.MagSamples.at2 m)
        s.MinMagDistance ||
      exceeds (PointToPlaneDistance L.sqrt s.MagSamples.at1 s.MagSamples.at2 m s.MagSamples.at0)
        s.MinMagDistance ||
      exceeds (PointToPlaneDistance L.sqrt s.MagSamples.at2 m s.MagSamples.at0 s.MagSamples.at1)
        s.MinMagDistance ||
      exceeds (PointToPlaneDistance L.sqrt m s.MagSamples.at0 s.MagSamples.at1 s.MagSamples.at2)
        s.MinMagDistance)
  | _ => false

/-- `MagCalibration::InsertIfAcceptable`: the returned flag and the new state;
`none` if a sample were written outside the arrays. -/
def InsertIfAcceptable (L : MathLib α Q) (s : MagCalibration α Q) (q : Q) (m : Vector3 α) :
    Option (Bool × MagCalibration α Q) :=
  if IsAcceptableSample L s q m then do
    let ms ← s.MagSamples.set s.SampleCount m
    let qs ← s.QuatSamples.set s.SampleCount q
    some (true, { s with MagSamples := ms, QuatSamples := qs, SampleCount := s.SampleCount + 1 })
  else
    some (false, s)

/-- The matrix `calMat` that `SetCalibration` builds from the sphere center. -/
def calMat (c : Vector3 α) : Matrix4 α :=
  (((Matrix4.identity : Matrix4 α).set 0 3 (-c.x)).set 1 3 (-c.y)).set 2 3 (-c.z)

/-- `MagCalibration::SetCalibration`: the returned flag, the new state and the
collaborator; `none` if the assertion of `CalculateSphereCenter` fails. -/
def SetCalibration (s : MagCalibration α Q) (sf : SensorFusion α Q) :
    Option (Bool × MagCalibration α Q × SensorFusion α Q) :=
  if s.SampleCount < 4 then some (false, s, sf)
  else do
    let c ← CalculateSphereCenter s.MagSamples.at0 s.MagSamples.at1 s.MagSamples.at2
      s.MagSamples.at3
    let s1 := { s with MagCenter := c }
    let sf1 := sf.SetMagCalibration (calMat s1.MagCenter)
    some (true, { s1 with Status := Mag_Calibrated }, sf1)

/-- `MagCalibration::UpdateAutoCalibration`: the returned status, the new state
and the collaborator. -/
def UpdateAutoCalibration (L : MathLib α Q) (s : MagCalibration α Q) (sf : SensorFusion α Q) :
    Option (MagStatus × MagCalibration α Q × SensorFusion α Q) :=
  if s.Status ≠ Mag_AutoCalibrating then some (s.Status, s, sf)
  else do
    let q := sf.GetOrientation
    let m := sf.GetMagnetometer
    let r ← InsertIfAcceptable L s q m
    let s1 := r.2
    if s1.SampleCount = 4 ∧ s1.Status = Mag_AutoCalibrating then do
      let r2 ← SetCalibration s1 sf
      some (r2.2.1.Status, r2.2.1, r2.2.2)
    else
      some (s1.Status, s1, sf)

/-! ## Runs of the automatic calibration -/

/-- Whether a call of `UpdateAutoCalibration` in state `s` reaches
`InsertIfAcceptable` and has the collaborator's current sample accepted. -/
def acceptsSample (L : MathLib α Q) (s : MagCalibration α Q) (sf : SensorFusion α Q) : Bool :=
  decide (s.Status = Mag_AutoCalibrating) &&
    IsAcceptableSample L s sf.GetOrientation sf.GetMagnetometer

/-- A point of a run of the automatic calibration: the calibrator, the
collaborator, the number of calls so far that accepted a sample, and the values
the calls returned (most recent first). -/
structure AutoRun (α Q : Type) where
  state : MagCalibration α Q
  fusion : SensorFusion α Q
  accepted : Nat
  returned : List MagStatus

/-- One tick of the fusion loop: the collaborator presents the readings `x`,
then `UpdateAutoCalibration` is called. -/
def AutoRun.tick (L : MathLib α Q) (r : AutoRun α Q) (x : Q × Vector3 α) :
    Option (AutoRun α Q) := do
  let sf := r.fusion.withReadings x.1 x.2
  let out ← UpdateAutoCalibration L r.state sf
  some { state := out.2.1, fusion := out.2.2,
         accepted := r.accepted + (if acceptsSample L r.state sf then 1 else 0),
         returned := out.1 :: r.returned }

/-- A finite sequence of ticks. -/
def AutoRun.run (L : MathLib α Q) : AutoRun α Q → List (Q × Vector3 α) → Option (AutoRun α Q)
  | r, [] => some r
  | r, x :: xs => (r.tick L x).bind (fun r1 => AutoRun.run L r1 xs)

/-- `BeginAutoCalibration` followed by one `UpdateAutoCalibration` call per reading. -/
def autoCalibrate (L : MathLib α Q) (s : MagCalibration α Q) (sf : SensorFusion α Q)
    (xs : List (Q × Vector3 α)) : Option (AutoRun α Q) :=
  AutoRun.run L
    { state := (BeginAutoCalibration s sf).1, fusion := (BeginAutoCalibration s sf).2,
      accepted := 0, returned := [] } xs

/-- The point `c` is at the same squared distance from all four stored fields. -/
def Equidistant (c : Vector3 α) (a : Array4 (Vector3 α)) : Prop :=
  distSq c a.at0 = distSq c a.at1 ∧ distSq c a.at1 = distSq c a.at2 ∧
    distSq c a.at2 = distSq c a.at3

/-- The invariant of a run of the automatic calibration: the buffer holds as many
samples as were accepted, and the calibrator is either still collecting with
fewer than four samples, or calibrated with four samples and a center
equidistant from the four stored fields. -/
def RunInv (r : AutoRun α Q) : Prop :=
  r.state.SampleCount = r.accepted ∧
    ((r.state.Status = Mag_AutoCalibrating ∧ r.accepted < 4) ∨
      (r.state.Status = Mag_Calibrated ∧ r.accepted = 4 ∧
        Equidistant r.state.MagCenter r.state.MagSamples))

end Calibrator

/-! ## Example data -/

section Examples

variable (α : Type) [LinearOrderedField α]

/-- A math library for the examples: an orientation is a scalar angle, and the
proximity of two orientations is the square of their difference. -/
def exampleLib (sqrt : α → α) : MathLib α α :=
  { sqrt := sqrt, DistanceSq := fun a b => (a - b) * (a - b) }

/-- A calibrator with `n` samples, status `st` and field threshold `d` (with
`MinMagDistanceSq = d * d`), whose stored fields are the origin and the three
unit points of the axes. -/
def exampleCalibration (n : Nat) (st : MagStatus) (d : α) : MagCalibration α α :=
  { MagCenter := ⟨0, 0, 0⟩, SampleCount := n, Status := st,
    MinMagDistance := d, MinMagDistanceSq := d * d, MinQuatDistanceSq := 1 / 4,
    MagSamples := ⟨⟨0, 0, 0⟩, ⟨1, 0, 0⟩, ⟨0, 1, 0⟩, ⟨0, 0, 1⟩⟩,
    QuatSamples := ⟨0, 1, 2, 3⟩ }

/-- A collaborator with no calibration installed and no call received. -/
def exampleFusion : SensorFusion α α :=
  { Orientation := 0, Magnetometer := ⟨0, 0, 0⟩, MagCalibrationMatrix := Matrix4.identity,
    Calls := [] }

end Examples

/-! ## Rounded arithmetic

The operations of the calibrator once more, with every `float` operation
rounded: the parameter `r` maps the exact result of an arithmetic operation to
the `float` that the operation returns, and each definition applies it once per
operation of the C++ expression, in the order of evaluation.  With `r = id` they
are the exact definitions above; with `r = fl32` they are the binary32
operations.  `OVR_ASSERT`, a macro declared outside the translated file, is a
diagnostic of debug builds and has no return of its own; it is not a statement of
these definitions, which follow the statements of the functions as a build
without assertions executes them. -/

/-- The power `2 ^ k` of two for an integer exponent `k`. -/
def pow2 (k : ℤ) : ℚ :=
  if 0 ≤ k then ((2 ^ k.toNat : ℕ) : ℚ) else 1 / ((2 ^ (-k).toNat : ℕ) : ℚ)

/-- Binary search for a binary exponent: the greatest `e + j` with `0 ≤ j < 2 ^ k`
and `2 ^ (e + j) ≤ x`, given `2 ^ e ≤ x`. -/
def binaryExponentAux (x : ℚ) : ℕ → ℤ → ℤ
  | 0, e => e
  | k + 1, e =>
    if pow2 (e + 2 ^ k) ≤ x then binaryExponentAux x k (e + 2 ^ k) else binaryExponentAux x k e

/-- The binary exponent of `x`: the integer `e` with `2 ^ e ≤ |x| < 2 ^ (e + 1)`,
for `2 ^ (-1024) ≤ |x| < 2 ^ 1024`. -/
def binaryExponent (x : ℚ) : ℤ := binaryExponentAux |x| 11 (-1024)

/-- The integer nearest to `x`; a tie goes to the even integer. -/
def roundHalfEven (x : ℚ) : ℤ :=
  let f := ⌊x⌋
  if x - f < 1 / 2 then f
  else if 1 / 2 < x - f then f + 1
  else if f % 2 = 0 then f else f + 1

/-- The rounding of IEEE 754 binary32 (`float`): the number with a 24-bit
significand nearest to `x`, a tie going to the even significand.  The exponent
range is not bounded: overflow and subnormal numbers are not modelled. -/
def fl32 (x : ℚ) : ℚ :=
  if x = 0 then 0
  else
    let e := binaryExponent x
    (roundHalfEven (x / pow2 (e - 23)) : ℚ) * pow2 (e - 23)

/-- Binary search for an integer square root: the greatest `a + j` with
`0 ≤ j < 2 ^ k` and `(a + j)² ≤ n`, given `a² ≤ n`. -/
def isqrtAux (n : ℕ) : ℕ → ℕ → ℕ
  | 0, a => a
  | k + 1, a =>
    if (a + 2 ^ k) * (a + 2 ^ k) ≤ n then isqrtAux n k (a + 2 ^ k) else isqrtAux n k a

/-- The square root of binary32 (`sqrtf`), correctly rounded: the number with a
24-bit significand nearest to the square root of `x`.  The argument is scaled by
an even power of two into `[2 ^ 46, 2 ^ 48)`, where the square root has 24 bits
before the point.  The result is `0` at `0`; a negative argument does not occur,
the calibrator takes the square root of a sum of squares only. -/
def fsqrt32 (x : ℚ) : ℚ :=
  if x ≤ 0 then 0
  else
    let h := binaryExponent x / 2
    let s := x / pow2 (2 * (h - 23))
    let n := isqrtAux ⌊s⌋.toNat 24 0
    let mid : ℚ := (n : ℚ) + 1 / 2
    let k : ℕ :=
      if s < mid * mid then n
      else if mid * mid < s then n + 1
      else if n % 2 = 0 then n else n + 1
    (k : ℚ) * pow2 (h - 23)

namespace Vector3

variable {α : Type} [LinearOrderedField α]

/-- Modelled from the spec: `Vector3f::operator-` in rounded arithmetic. -/
def subR (r : α → α) (a b : Vector3 α) : Vector3 α :=
  ⟨r (a.x - b.x), r (a.y - b.y), r (a.z - b.z)⟩

/-- Modelled from the spec: the dot product `x*b.x + y*b.y + z*b.z` in rounded
arithmetic. -/
def DotR (r : α → α) (a b : Vector3 α) : α :=
  r (r (r (a.x * b.x) + r (a.y * b.y)) + r (a.z * b.z))

/-- Modelled from the spec: `Vector3f::Cross` in rounded arithmetic. -/
def CrossR (r : α → α) (a b : Vector3 α) : Vector3 α :=
  ⟨r (r (a.y * b.z) - r (a.z * b.y)), r (r (a.z * b.x) - r (a.x * b.z)),
    r (r (a.x * b.y) - r (a.y * b.x))⟩

/-- Modelled from the spec: `Vector3f::LengthSq`, `x*x + y*y + z*z`, in rounded
arithmetic. -/
def LengthSqR (r : α → α) (a : Vector3 α) : α :=
  r (r (r (a.x * a.x) + r (a.y * a.y)) + r (a.z * a.z))

/-- Modelled from the spec: `Vector3f::Normalize` in rounded arithmetic; `none`
when the length is zero (the C++ code then produces NaN components). -/
def NormalizeR (r : α → α) (sqrt : α → α) (a : Vector3 α) : Option (Vector3 α) :=
  let l := sqrt (a.LengthSqR r)
  if l = 0 then none else some ⟨r (a.x / l), r (a.y / l), r (a.z / l)⟩

end Vector3

namespace Matrix4

variable {α : Type} [LinearOrderedField α]

/-- The 3×3 minor `SubDet` in rounded arithmetic. -/
def SubDetR (r : α → α) (A : Matrix4 α) (r0 r1 r2 c0 c1 c2 : Fin 4) : α :=
  r (r (r (A.M r0 c0 * r (r (A.M r1 c1 * A.M r2 c2) - r (A.M r1 c2 * A.M r2 c1)))
        - r (A.M r0 c1 * r (r (A.M r1 c0 * A.M r2 c2) - r (A.M r1 c2 * A.M r2 c0))))
      + r (A.M r0 c2 * r (r (A.M r1 c0 * A.M r2 c1) - r (A.M r1 c1 * A.M r2 c0))))

/-- Modelled from the spec: `Matrix4f::Determinant` in rounded arithmetic, the
cofactor expansion along the first row evaluated from left to right. -/
def DeterminantR (r : α → α) (A : Matrix4 α) : α :=
  r (r (r (r (A.M 0 0 * A.SubDetR r 1 2 3 1 2 3)
          - r (A.M 0 1 * A.SubDetR r 1 2 3 0 2 3))
        + r (A.M 0 2 * A.SubDetR r 1 2 3 0 1 3))
      - r (A.M 0 3 * A.SubDetR r 1 2 3 0 1 2))

end Matrix4

section Rounded

variable {α : Type} [LinearOrderedField α] {Q : Type}

/-- The entry `p[i].x*p[i].x + p[i].y*p[i].y + p[i].z*p[i].z` in rounded arithmetic. -/
def sqNormR (r : α → α) (v : Vector3 α) : α :=
  r (r (r (v.x * v.x) + r (v.y * v.y)) + r (v.z * v.z))

/-- The determinant `m11` of `CalculateSphereCenter` as the code computes it in
rounded arithmetic. -/
def m11R (r : α → α) (p1 p2 p3 p4 : Vector3 α) : α :=
  (fillRows Vector3.x Vector3.y Vector3.z (pointArray p1 p2 p3 p4)).DeterminantR r

/-- The determinant `m12` in rounded arithmetic. -/
def m12R (r : α → α) (p1 p2 p3 p4 : Vector3 α) : α :=
  (fillRows (sqNormR r) Vector3.y Vector3.z (pointArray p1 p2 p3 p4)).DeterminantR r

/-- The determinant `m13` in rounded arithmetic. -/
def m13R (r : α → α) (p1 p2 p3 p4 : Vector3 α) : α :=
  (fillRows (sqNormR r) Vector3.x Vector3.z (pointArray p1 p2 p3 p4)).DeterminantR r

/-- The determinant `m14` in rounded arithmetic. -/
def m14R (r : α → α) (p1 p2 p3 p4 : Vector3 α) : α :=
  (fillRows (sqNormR r) Vector3.x Vector3.y (pointArray p1 p2 p3 p4)).DeterminantR r

/-- `MagCalibration::CalculateSphereCenter` in rounded arithmetic, as a build
without assertions executes it: the function always returns.  When `m11` is zero
the quotient `0.5f / m11` is infinite and the returned vector has no finite
components; the scalar type has no such values, and the parameter `u` stands
for that vector. -/
def CalculateSphereCenterR (r : α → α) (u : Vector3 α) (p1 p2 p3 p4 : Vector3 α) : Vector3 α :=
  if m11R r p1 p2 p3 p4 = 0 then u
  else
    let c := r ((1 / 2) / m11R r p1 p2 p3 p4)
    ⟨r (c * m12R r p1 p2 p3 p4), r (-c * m13R r p1 p2 p3 p4), r (c * m14R r p1 p2 p3 p4)⟩

/-- `MagCalibration::PointToPlaneDistance` in rounded arithmetic; `none` when
the plane normal cannot be normalized. -/
def PointToPlaneDistanceR (r : α → α) (sqrt : α → α) (p1 p2 p3 p4 : Vector3 α) : Option α :=
  let v1 := Vector3.subR r p1 p2
  let v2 := Vector3.subR r p1 p3
  let planeNormal := Vector3.CrossR r v1 v2
  match planeNormal.NormalizeR r sqrt with
  | none => none
  | some n => some |r (n.DotR r p4 - n.DotR r p1)|

/-- `MagCalibration::IsAcceptableSample` in rounded arithmetic. -/
def IsAcceptableSampleR (r : α → α) (L : MathLib α Q) (s : MagCalibration α Q) (q : Q)
    (m : Vector3 α) : Bool :=
  match s.SampleCount with
  | 0 => true
  | 1 =>
    decide (L.DistanceSq q s.QuatSamples.at0 > s.MinQuatDistanceSq) &&
    decide ((Vector3.subR r m s.MagSamples.at0).LengthSqR r > s.MinMagDistanceSq)
  | 2 =>
    decide (L.DistanceSq q s.QuatSamples.at0 > s.MinQuatDistanceSq) &&
    decide (L.DistanceSq q s.QuatSamples.at1 > s.MinQuatDistanceSq) &&
    decide ((Vector3.subR r m s.MagSamples.at0).LengthSqR r > s.MinMagDistanceSq) &&
    decide ((Vector3.subR r m s.MagSamples.at1).LengthSqR r > s.MinMagDistanceSq)
  | 3 =>
    decide (L.DistanceSq q s.QuatSamples.at0 > s.MinQuatDistanceSq) &&
    decide (L.DistanceSq q s.QuatSamples.at1 > s.MinQuatDistanceSq) &&
    decide (L.DistanceSq q s.QuatSamples.at2 > s.MinQuatDistanceSq) &&
    (exceeds (PointToPlaneDistanceR r L.sqrt s.MagSamples.at0 s.MagSamples.at1 s.MagSamples.at2 m)
        s.MinMagDistance ||
      exceeds (PointToPlaneDistanceR r L.sqrt s.MagSamples.at1 s.MagSamples.at2 m s.MagSamples.at0)
        s.MinMagDistance ||
      exceeds (PointToPlaneDistanceR r L.sqrt s.MagSamples.at2 m s.MagSamples.at0 s.MagSamples.at1)
        s.MinMagDistance ||
      exceeds (PointToPlaneDistanceR r L.sqrt m s.MagSamples.at0 s.MagSamples.at1 s.MagSamples.at2)
        s.MinMagDistance)
  | _ => false

/-- `MagCalibration::InsertIfAcceptable` in rounded arithmetic: the returned flag
and the new state; `none` if a sample were written outside the arrays. -/
def InsertIfAcceptableR (r : α → α) (L : MathLib α Q) (s : MagCalibration α Q) (q : Q)
    (m : Vector3 α) : Option (Bool × MagCalibration α Q) :=
  if IsAcceptableSampleR r L s q m then do
    let ms ← s.MagSamples.set s.SampleCount m
    let qs ← s.QuatSamples.set s.SampleCount q
    some (true, { s with MagSamples := ms, QuatSamples := qs, SampleCount := s.SampleCount + 1 })
  else
    some (false, s)

/-- `MagCalibration::SetCalibration` in rounded arithmetic, as a build without
assertions executes it: the returned flag, the new state and the collaborator. -/
def SetCalibrationR (r : α → α) (u : Vector3 α) (s : MagCalibration α Q)
    (sf : SensorFusion α Q) : Bool × MagCalibration α Q × SensorFusion α Q :=
  if s.SampleCount < 4 then (false, s, sf)
  else
    let c := CalculateSphereCenterR r u s.MagSamples.at0 s.MagSamples.at1 s.MagSamples.at2
      s.MagSamples.at3
    let s1 := { s with MagCenter := c }
    let sf1 := sf.SetMagCalibration (calMat s1.MagCenter)
    (true, { s1 with Status := Mag_Calibrated }, sf1)

/-- `MagCalibration::UpdateAutoCalibration` in rounded arithmetic, as a build
without assertions executes it: the returned status, the new state and the
collaborator. -/
def UpdateAutoCalibrationR (r : α → α) (u : Vector3 α) (L : MathLib α Q)
    (s : MagCalibration α Q) (sf : SensorFusion α Q) :
    Option (MagStatus × MagCalibration α Q × SensorFusion α Q) :=
  if s.Status ≠ Mag_AutoCalibrating then some (s.Status, s, sf)
  else do
    let q := sf.GetOrientation
    let m := sf.GetMagnetometer
    let ins ← InsertIfAcceptableR r L s q m
    let s1 := ins.2
    if s1.SampleCount = 4 ∧ s1.Status = Mag_AutoCalibrating then
      let out := SetCalibrationR r u s1 sf
      some (out.2.1.Status, out.2.1, out.2.2)
    else
      some (s1.Status, s1, sf)

/-- Whether a call of `UpdateAutoCalibrationR` in state `s` reaches
`InsertIfAcceptableR` and has the collaborator's current sample accepted. -/
def acceptsSampleR (r : α → α) (L : MathLib α Q) (s : MagCalibration α Q)
    (sf : SensorFusion α Q) : Bool :=
  decide (s.Status = Mag_AutoCalibrating) &&
    IsAcceptableSampleR r L s sf.GetOrientation sf.GetMagnetometer

/-- One tick of the fusion loop in rounded arithmetic: the collaborator presents
the readings `x`, then `UpdateAutoCalibrationR` is called. -/
def AutoRun.tickR (r : α → α) (u : Vector3 α) (L : MathLib α Q) (p : AutoRun α Q)
    (x : Q × Vector3 α) : Option (AutoRun α Q) := do
  let sf := p.fusion.withReadings x.1 x.2
  let out ← UpdateAutoCalibrationR r u L p.state sf
  some { state := out.2.1, fusion := out.2.2,
         accepted := p.accepted + (if acceptsSampleR r L p.state sf then 1 else 0),
         returned := out.1 :: p.returned }

/-- A finite sequence of ticks in rounded arithmetic. -/
def AutoRun.runR (r : α → α) (u : Vector3 α) (L : MathLib α Q) :
    AutoRun α Q → List (Q × Vector3 α) → Option (AutoRun α Q)
  | p, [] => some p
  | p, x :: xs => (p.tickR r u L x).bind (fun p1 => AutoRun.runR r u L p1 xs)

/-- `BeginAutoCalibration` followed by one `UpdateAutoCalibrationR` call per reading. -/
def autoCalibrateR (r : α → α) (u : Vector3 α) (L : MathLib α Q) (s : MagCalibration α Q)
    (sf : SensorFusion α Q) (xs : List (Q × Vector3 α)) : Option (AutoRun α Q) :=
  AutoRun.runR r u L
    { state := (BeginAutoCalibration s sf).1, fusion := (BeginAutoCalibration s sf).2,
      accepted := 0, returned := [] } xs

/-- The invariant of a run in rounded arithmetic: the buffer holds as many
samples as were accepted, and the calibrator is either still collecting with
fewer than four samples or calibrated with four. -/
def RunInvR (p : AutoRun α Q) : Prop :=
  p.state.SampleCount = p.accepted ∧
    ((p.state.Status = Mag_AutoCalibrating ∧ p.accepted < 4) ∨
      (p.state.Status = Mag_Calibrated ∧ p.accepted = 4))

end Rounded

section RoundedExamples

/-- A calibrator over the rationals holding three samples whose fields lie far
from the origin, `(10000,10000,10000)`, `(10001,10000,10000)` and
`(10000,10001,10000)`, with field threshold `1/2`; every coordinate is a `float`. -/
def exampleFarCalibration : MagCalibration ℚ ℚ :=
  { MagCenter := ⟨0, 0, 0⟩, SampleCount := 3, Status := Mag_AutoCalibrating,
    MinMagDistance := 1 / 2, MinMagDistanceSq := 1 / 4, MinQuatDistanceSq := 1 / 4,
    MagSamples := ⟨⟨10000, 10000, 10000⟩, ⟨10001, 10000, 10000⟩, ⟨10000, 10001, 10000⟩,
      ⟨0, 0, 0⟩⟩,
    QuatSamples := ⟨0, 1, 2, 3⟩ }

end RoundedExamples

/-! ## The determinant and the sphere fit -/

section GeometryLemmas

variable {α : Type} [LinearOrderedField α]

/-- `Matrix4.Determinant` is the determinant of the matrix of entries `M`. -/
theorem Determinant_eq_det (A : Matrix4 α) :
    A.Determinant = Matrix.det (Matrix.of A.M) := by
  rw [Matrix.det_succ_row_zero]
  simp only [Fin.sum_univ_succ, Matrix.det_fin_three, Matrix.submatrix_apply, Matrix.of_apply,
    Matrix4.Determinant, Matrix4.SubDet]
  simp [Fin.succAbove]
  have h3 : (Fin.succ 2 : Fin 4) = 3 := rfl
  have h2 : (Fin.castSucc 2 : Fin 4) = 2 := rfl
  have h1 : ((1 : Fin 4) < 3) := by decide
  have h22 : ¬ ((2 : Fin 4) < 2) := by decide
  simp only [h3, h2, h1, h22, if_true, if_false]
  ring

@[simp] theorem Vector3.sub_x (a b : Vector3 α) : (a - b).x = a.x - b.x := rfl

@[simp] theorem Vector3.sub_y (a b : Vector3 α) : (a - b).y = a.y - b.y := rfl

@[simp] theorem Vector3.sub_z (a b : Vector3 α) : (a - b).z = a.z - b.z := rfl

/-- The determinant of a matrix filled by one loop of `CalculateSphereCenter`,
written out in the entries. -/
theorem fillRows_det (c0 c1 c2 : Vector3 α → α) (p1 p2 p3 p4 : Vector3 α) :
    (fillRows c0 c1 c2 (pointArray p1 p2 p3 p4)).Determinant =
      c0 p1 * (c1 p2 * (c2 p3 * 1 - 1 * c2 p4) - c2 p2 * (c1 p3 * 1 - 1 * c1 p4)
          + 1 * (c1 p3 * c2 p4 - c2 p3 * c1 p4))
        - c1 p1 * (c0 p2 * (c2 p3 * 1 - 1 * c2 p4) - c2 p2 * (c0 p3 * 1 - 1 * c0 p4)
          + 1 * (c0 p3 * c2 p4 - c2 p3 * c0 p4))
        + c2 p1 * (c0 p2 * (c1 p3 * 1 - 1 * c1 p4) - c1 p2 * (c0 p3 * 1 - 1 * c0 p4)
          + 1 * (c0 p3 * c1 p4 - c1 p3 * c0 p4))
        - 1 * (c0 p2 * (c1 p3 * c2 p4 - c2 p3 * c1 p4) - c1 p2 * (c0 p3 * c2 p4 - c2 p3 * c0 p4)
          + c2 p2 * (c0 p3 * c1 p4 - c1 p3 * c0 p4)) := rfl

/-- The relation between the four determinants of the sphere fit, for the
first and second point. -/
theorem sphere_dets_relation12 (p1 p2 p3 p4 : Vector3 α) :
    m12 p1 p2 p3 p4 * (p2.x - p1.x) - m13 p1 p2 p3 p4 * (p2.y - p1.y)
      + m14 p1 p2 p3 p4 * (p2.z - p1.z) = m11 p1 p2 p3 p4 * (sqNorm p2 - sqNorm p1) := by
  simp only [m11, m12, m13, m14, fillRows_det, sqNorm]
  ring

/-- The same relation for the second and third point. -/
theorem sphere_dets_relation23 (p1 p2 p3 p4 : Vector3 α) :
    m12 p1 p2 p3 p4 * (p3.x - p2.x) - m13 p1 p2 p3 p4 * (p3.y - p2.y)
      + m14 p1 p2 p3 p4 * (p3.z - p2.z) = m11 p1 p2 p3 p4 * (sqNorm p3 - sqNorm p2) := by
  simp only [m11, m12, m13, m14, fillRows_det, sqNorm]
  ring

/-- The same relation for the third and fourth point. -/
theorem sphere_dets_relation34 (p1 p2 p3 p4 : Vector3 α) :
    m12 p1 p2 p3 p4 * (p4.x - p3.x) - m13 p1 p2 p3 p4 * (p4.y - p3.y)
      + m14 p1 p2 p3 p4 * (p4.z - p3.z) = m11 p1 p2 p3 p4 * (sqNorm p4 - sqNorm p3) := by
  simp only [m11, m12, m13, m14, fillRows_det, sqNorm]
  ring

/-- A point `(c·M12, -c·M13, c·M14)` with `2·c·D = 1` is as far from `a` as from
`b` when the determinants satisfy the relation above for `a` and `b`. -/
theorem distSq_center_eq (c D M12 M13 M14 : α) (a b : Vector3 α) (hc : 2 * c * D = 1)
    (key : M12 * (b.x - a.x) - M13 * (b.y - a.y) + M14 * (b.z - a.z)
      = D * (sqNorm b - sqNorm a)) :
    distSq ⟨c * M12, -c * M13, c * M14⟩ a = distSq ⟨c * M12, -c * M13, c * M14⟩ b := by
  obtain ⟨xa, ya, za⟩ := a
  obtain ⟨xb, yb, zb⟩ := b
  simp only [distSq, Vector3.LengthSq, Vector3.sub_x, Vector3.sub_y, Vector3.sub_z,
    sqNorm] at key ⊢
  linear_combination (2 * c) * key
    + (xb * xb + yb * yb + zb * zb - (xa * xa + ya * ya + za * za)) * hc

/-- The value of `CalculateSphereCenter` when the assertion holds. -/
theorem CalculateSphereCenter_of_ne (p1 p2 p3 p4 : Vector3 α) (h : m11 p1 p2 p3 p4 ≠ 0) :
    CalculateSphereCenter p1 p2 p3 p4 =
      some ⟨(1 / 2) / m11 p1 p2 p3 p4 * m12 p1 p2 p3 p4,
        -((1 / 2) / m11 p1 p2 p3 p4) * m13 p1 p2 p3 p4,
        (1 / 2) / m11 p1 p2 p3 p4 * m14 p1 p2 p3 p4⟩ := by
  simp only [CalculateSphereCenter, if_neg h]

/-- Whenever `CalculateSphereCenter` has a result, the result is equidistant
from the four points. -/
theorem sphere_center_equidistant (p1 p2 p3 p4 c : Vector3 α)
    (hc : CalculateSphereCenter p1 p2 p3 p4 = some c) :
    distSq c p1 = distSq c p2 ∧ distSq c p2 = distSq c p3 ∧ distSq c p3 = distSq c p4 := by
  by_cases h : m11 p1 p2 p3 p4 = 0
  · simp [CalculateSphereCenter, h] at hc
  · have h2 : 2 * ((1 / 2) / m11 p1 p2 p3 p4) * m11 p1 p2 p3 p4 = 1 := by field_simp
    rw [CalculateSphereCenter_of_ne p1 p2 p3 p4 h] at hc
    cases hc
    exact ⟨distSq_center_eq _ _ _ _ _ p1 p2 h2 (sphere_dets_relation12 p1 p2 p3 p4),
      distSq_center_eq _ _ _ _ _ p2 p3 h2 (sphere_dets_relation23 p1 p2 p3 p4),
      distSq_center_eq _ _ _ _ _ p3 p4 h2 (sphere_dets_relation34 p1 p2 p3 p4)⟩

/-- Moving the first row of `m11` to the end changes its sign. -/
theorem m11_rotate (a b c d : Vector3 α) : m11 b c d a = -m11 a b c d := by
  simp only [m11, fillRows_det]
  ring

/-- The quantity whose absolute value `PointToPlaneDistance` normalizes is the
determinant `m11`, up to sign. -/
theorem plane_offset_eq_m11 (a b c d : Vector3 α) :
    ((a - b).Cross (a - c)).Dot d - ((a - b).Cross (a - c)).Dot a = -m11 a b c d := by
  simp only [m11, fillRows_det, Vector3.Dot, Vector3.Cross, Vector3.sub_x, Vector3.sub_y,
    Vector3.sub_z]
  ring

/-- A plane distance that exceeds a non-negative threshold comes from four
points with non-zero `m11`. -/
theorem exceeds_m11_ne (sqrt : α → α) (a b c d : Vector3 α) (t : α) (ht : 0 ≤ t)
    (h : exceeds (PointToPlaneDistance sqrt a b c d) t = true) : m11 a b c d ≠ 0 := by
  intro hz
  have hoff := plane_offset_eq_m11 a b c d
  rw [hz, neg_zero] at hoff
  unfold PointToPlaneDistance Vector3.Normalize at h
  simp only at h
  split at h
  · simp [exceeds] at h
  · rename_i n hn
    split at hn
    · simp at hn
    · simp only [Option.some.injEq] at hn
      subst hn
      simp only [exceeds, decide_eq_true_eq, Vector3.Dot] at h
      simp only [Vector3.Dot] at hoff
      have : ((a - b).Cross (a - c)).x / Vector3.Length sqrt ((a - b).Cross (a - c)) * d.x
          + ((a - b).Cross (a - c)).y / Vector3.Length sqrt ((a - b).Cross (a - c)) * d.y
          + ((a - b).Cross (a - c)).z / Vector3.Length sqrt ((a - b).Cross (a - c)) * d.z
          - (((a - b).Cross (a - c)).x / Vector3.Length sqrt ((a - b).Cross (a - c)) * a.x
          + ((a - b).Cross (a - c)).y / Vector3.Length sqrt ((a - b).Cross (a - c)) * a.y
          + ((a - b).Cross (a - c)).z / Vector3.Length sqrt ((a - b).Cross (a - c)) * a.z) = 0 := by
        linear_combination (1 / Vector3.Length sqrt ((a - b).Cross (a - c))) * hoff
      rw [this, abs_zero] at h
      exact absurd h (not_lt.mpr ht)

end GeometryLemmas

/-! ## The acceptance policy and the insertion -/

section CalibratorLemmas

variable {α : Type} [LinearOrderedField α] {Q : Type}

/-- The comparison `exceeds` holds exactly for a defined distance above the threshold. -/
theorem exceeds_iff (o : Option α) (t : α) : exceeds o t = true ↔ ∃ d, o = some d ∧ d > t := by
  cases o <;> simp [exceeds]

/-- An acceptable sample is only found with fewer than four stored samples. -/
theorem IsAcceptableSample_count_lt (L : MathLib α Q) (s : MagCalibration α Q) (q : Q)
    (m : Vector3 α) (h : IsAcceptableSample L s q m = true) : s.SampleCount < 4 := by
  by_contra hge
  obtain ⟨k, hk⟩ : ∃ k, s.SampleCount = k + 4 := ⟨s.SampleCount - 4, by omega⟩
  simp [IsAcceptableSample, hk] at h

/-- The state after `InsertIfAcceptable` stored an acceptable sample `(q, m)`
at index `SampleCount`. -/
theorem InsertIfAcceptable_accept (L : MathLib α Q) (s : MagCalibration α Q) (q : Q)
    (m : Vector3 α) (h : IsAcceptableSample L s q m = true) :
    ∃ ms qs, s.MagSamples.set s.SampleCount m = some ms ∧
      s.QuatSamples.set s.SampleCount q = some qs ∧
      InsertIfAcceptable L s q m =
        some (true, { s with MagSamples := ms, QuatSamples := qs,
                             SampleCount := s.SampleCount + 1 }) := by
  have hlt := IsAcceptableSample_count_lt L s q m h
  have hc : s.SampleCount = 0 ∨ s.SampleCount = 1 ∨ s.SampleCount = 2 ∨ s.SampleCount = 3 := by
    omega
  rcases hc with hc | hc | hc | hc <;>
    simp [InsertIfAcceptable, h, hc, Array4.set]

/-- A rejected sample leaves the calibrator as it was. -/
theorem InsertIfAcceptable_reject (L : MathLib α Q) (s : MagCalibration α Q) (q : Q)
    (m : Vector3 α) (h : IsAcceptableSample L s q m = false) :
    InsertIfAcceptable L s q m = some (false, s) := by
  simp [InsertIfAcceptable, h]

/-- With three stored samples and a non-negative `MinMagDistance`, an accepted
candidate field is not coplanar with the three stored fields. -/
theorem accept_fourth_m11_ne (L : MathLib α Q) (s : MagCalibration α Q) (q : Q) (m : Vector3 α)
    (h3 : s.SampleCount = 3) (ht : 0 ≤ s.MinMagDistance)
    (h : IsAcceptableSample L s q m = true) :
    m11 s.MagSamples.at0 s.MagSamples.at1 s.MagSamples.at2 m ≠ 0 := by
  simp only [IsAcceptableSample, h3, Bool.and_eq_true, Bool.or_eq_true] at h
  obtain ⟨_, hd⟩ := h
  rcases hd with ((hd | hd) | hd) | hd
  · exact exceeds_m11_ne L.sqrt _ _ _ _ _ ht hd
  · have := exceeds_m11_ne L.sqrt _ _ _ _ _ ht hd
    rw [m11_rotate] at this
    exact fun hz => this (by rw [hz, neg_zero])
  · have := exceeds_m11_ne L.sqrt _ _ _ _ _ ht hd
    rw [m11_rotate, m11_rotate, neg_neg] at this
    exact this
  · have := exceeds_m11_ne L.sqrt _ _ _ _ _ ht hd
    rw [m11_rotate, m11_rotate, m11_rotate, neg_neg] at this
    exact fun hz => this (by rw [hz, neg_zero])

/-- `SetCalibration` on a full buffer whose fields pass the assertion. -/
theorem SetCalibration_full (s : MagCalibration α Q) (sf : SensorFusion α Q) (c : Vector3 α)
    (h4 : 4 ≤ s.SampleCount)
    (hc : CalculateSphereCenter s.MagSamples.at0 s.MagSamples.at1 s.MagSamples.at2
      s.MagSamples.at3 = some c) :
    SetCalibration s sf =
      some (true, { s with MagCenter := c, Status := Mag_Calibrated },
        sf.SetMagCalibration (calMat c)) := by
  have : ¬ s.SampleCount < 4 := by omega
  simp [SetCalibration, this, hc]

/-- `UpdateAutoCalibration` outside the automatic calibration. -/
theorem UpdateAutoCalibration_idle (L : MathLib α Q) (s : MagCalibration α Q)
    (sf : SensorFusion α Q) (h : s.Status ≠ Mag_AutoCalibrating) :
    UpdateAutoCalibration L s sf = some (s.Status, s, sf) := by
  simp [UpdateAutoCalibration, h]

end CalibratorLemmas

/-! ## Runs of the automatic calibration -/

section RunLemmas

variable {α : Type} [LinearOrderedField α] {Q : Type}

/-- One tick from a state satisfying the invariant, with a non-negative
`MinMagDistance`: the call returns, keeps the thresholds and the invariant,
returns the new status, and moves to `Mag_Calibrated` exactly when it accepts
the fourth sample. -/
theorem tick_inv (L : MathLib α Q) (r : AutoRun α Q) (x : Q × Vector3 α)
    (ht : 0 ≤ r.state.MinMagDistance) (hinv : RunInv r) :
    ∃ r1, r.tick L x = some r1 ∧ r1.state.MinMagDistance = r.state.MinMagDistance ∧ RunInv r1 ∧
      r1.returned = r1.state.Status :: r.returned ∧
      (r1.state.Status = Mag_Calibrated ∧ r.state.Status = Mag_AutoCalibrating ↔
        r.accepted = 3 ∧ acceptsSample L r.state (r.fusion.withReadings x.1 x.2) = true) := by
  obtain ⟨hcount, hcase⟩ := hinv
  rcases hcase with ⟨hst, hlt⟩ | ⟨hst, h4, heq⟩
  · -- still collecting
    cases hacc : IsAcceptableSample L r.state x.1 x.2
    · -- the sample is rejected
      have hne : ¬ r.state.SampleCount = 4 := by omega
      refine ⟨⟨r.state, r.fusion.withReadings x.1 x.2, r.accepted,
          Mag_AutoCalibrating :: r.returned⟩, ?_,
        rfl, ⟨hcount, Or.inl ⟨hst, hlt⟩⟩, by simp [hst], ?_⟩
      · simp [AutoRun.tick, UpdateAutoCalibration, hst, acceptsSample,
          SensorFusion.GetOrientation, SensorFusion.GetMagnetometer, SensorFusion.withReadings,
          InsertIfAcceptable, hacc, hne]
      · simp [hst, acceptsSample, SensorFusion.GetOrientation, SensorFusion.GetMagnetometer,
          SensorFusion.withReadings, hacc]
    · -- the sample is accepted
      obtain ⟨ms, qs, hms, hqs, hins⟩ := InsertIfAcceptable_accept L r.state x.1 x.2 hacc
      by_cases h3 : r.state.SampleCount = 3
      · -- it is the fourth sample
        have hm := accept_fourth_m11_ne L r.state x.1 x.2 h3 ht hacc
        have hms3 : ms = { r.state.MagSamples with at3 := x.2 } := by
          simpa [h3, Array4.set] using hms.symm
        obtain ⟨c, hcen⟩ : ∃ c, CalculateSphereCenter r.state.MagSamples.at0
            r.state.MagSamples.at1 r.state.MagSamples.at2 x.2 = some c :=
          ⟨_, CalculateSphereCenter_of_ne _ _ _ _ hm⟩
        have hequi := sphere_center_equidistant _ _ _ _ _ hcen
        refine ⟨⟨{ r.state with
                    MagSamples := ms, QuatSamples := qs, SampleCount := r.state.SampleCount + 1,
                    MagCenter := c, Status := Mag_Calibrated },
                  (r.fusion.withReadings x.1 x.2).SetMagCalibration (calMat c),
                  r.accepted + 1, Mag_Calibrated :: r.returned⟩,
          ?_, rfl, ⟨?_, Or.inr ⟨rfl, ?_, ?_⟩⟩, rfl, ?_⟩
        · simp [AutoRun.tick, UpdateAutoCalibration, hst, acceptsSample,
            SensorFusion.GetOrientation, SensorFusion.GetMagnetometer, SensorFusion.withReadings,
            hins, hacc, h3, SetCalibration, hms3, hcen, SensorFusion.SetMagCalibration]
        · simp [hcount]
        · simp only; omega
        · subst hms3
          exact hequi
        · simp [hst, acceptsSample, SensorFusion.GetOrientation, SensorFusion.GetMagnetometer,
            SensorFusion.withReadings, hacc]
          omega
      · -- fewer than four samples are stored afterwards
        have hne : ¬ r.state.SampleCount + 1 = 4 := by omega
        refine ⟨⟨{ r.state with
                    MagSamples := ms, QuatSamples := qs, SampleCount := r.state.SampleCount + 1 },
                  r.fusion.withReadings x.1 x.2, r.accepted + 1,
                  Mag_AutoCalibrating :: r.returned⟩,
          ?_, rfl, ⟨?_, Or.inl ⟨hst, ?_⟩⟩, by simp [hst], ?_⟩
        · simp [AutoRun.tick, UpdateAutoCalibration, hst, acceptsSample,
            SensorFusion.GetOrientation, SensorFusion.GetMagnetometer, SensorFusion.withReadings,
            hins, hacc, hne]
        · simp [hcount]
        · simp only; omega
        · simp [hst]
          intro h; omega
  · -- already calibrated
    have hne : r.state.Status ≠ Mag_AutoCalibrating := by simp [hst]
    refine ⟨⟨r.state, r.fusion.withReadings x.1 x.2, r.accepted,
        Mag_Calibrated :: r.returned⟩, ?_, rfl,
      ⟨hcount, Or.inr ⟨hst, h4, heq⟩⟩, by simp [hst], ?_⟩
    · simp [AutoRun.tick, UpdateAutoCalibration_idle L r.state _ hne, acceptsSample, hst]
    · simp [hst, h4]

/-- A run over the readings `xs ++ ys` is a run over `xs` followed by one over `ys`. -/
theorem run_append (L : MathLib α Q) (xs ys : List (Q × Vector3 α)) (r : AutoRun α Q) :
    AutoRun.run L r (xs ++ ys) = (AutoRun.run L r xs).bind (fun r1 => AutoRun.run L r1 ys) := by
  induction xs generalizing r with
  | nil => simp [AutoRun.run]
  | cons x xs ih =>
    simp only [List.cons_append, AutoRun.run]
    cases r.tick L x with
    | none => simp
    | some r1 => simpa using ih r1

/-- Every run from a state satisfying the invariant, with a non-negative
`MinMagDistance`, returns and keeps the invariant. -/
theorem run_inv (L : MathLib α Q) (xs : List (Q × Vector3 α)) (r : AutoRun α Q)
    (ht : 0 ≤ r.state.MinMagDistance) (hinv : RunInv r) :
    ∃ r1, AutoRun.run L r xs = some r1 ∧ r1.state.MinMagDistance = r.state.MinMagDistance ∧
      RunInv r1 := by
  induction xs generalizing r with
  | nil => exact ⟨r, rfl, rfl, hinv⟩
  | cons x xs ih =>
    obtain ⟨r1, h1, hm1, hinv1, -, -⟩ := tick_inv L r x ht hinv
    obtain ⟨r2, h2, hm2, hinv2⟩ := ih r1 (by rw [hm1]; exact ht) hinv1
    exact ⟨r2, by simp [AutoRun.run, h1, h2], by rw [hm2, hm1], hinv2⟩

/-- The invariant holds right after `BeginAutoCalibration`. -/
theorem begin_inv (s : MagCalibration α Q) (sf : SensorFusion α Q) :
    RunInv { state := (BeginAutoCalibration s sf).1, fusion := (BeginAutoCalibration s sf).2,
             accepted := 0, returned := [] } := by
  simp [RunInv, BeginAutoCalibration]

/-- The flag `acceptsSample` holds exactly when the call is in the automatic
calibration and its `InsertIfAcceptable` stores the sample and returns true. -/
theorem acceptsSample_iff (L : MathLib α Q) (s : MagCalibration α Q) (sf : SensorFusion α Q) :
    acceptsSample L s sf = true ↔
      s.Status = Mag_AutoCalibrating ∧
      ∃ s1, InsertIfAcceptable L s sf.GetOrientation sf.GetMagnetometer = some (true, s1) := by
  unfold acceptsSample
  cases hacc : IsAcceptableSample L s sf.GetOrientation sf.GetMagnetometer
  · simp [InsertIfAcceptable_reject L s _ _ hacc]
  · obtain ⟨ms, qs, -, -, hins⟩ := InsertIfAcceptable_accept L s _ _ hacc
    simp [hins]

/-- Outside the automatic calibration every run returns and changes neither the
calibrator, nor the installed calibration, nor the calls the collaborator
received, nor the number of accepted samples. -/
theorem run_idle (L : MathLib α Q) (xs : List (Q × Vector3 α)) (r : AutoRun α Q)
    (h : r.state.Status ≠ Mag_AutoCalibrating) :
    ∃ r1, AutoRun.run L r xs = some r1 ∧ r1.state = r.state ∧
      r1.fusion.MagCalibrationMatrix = r.fusion.MagCalibrationMatrix ∧
      r1.fusion.Calls = r.fusion.Calls ∧ r1.accepted = r.accepted := by
  induction xs generalizing r with
  | nil => exact ⟨r, rfl, rfl, rfl, rfl, rfl⟩
  | cons x xs ih =>
    have hacc : acceptsSample L r.state (r.fusion.withReadings x.1 x.2) = false := by
      simp [acceptsSample, h]
    have htick : r.tick L x = some ⟨r.state, r.fusion.withReadings x.1 x.2, r.accepted,
        r.state.Status :: r.returned⟩ := by
      simp [AutoRun.tick, UpdateAutoCalibration_idle L r.state _ h, hacc]
    obtain ⟨r1, h1, hs, hm, hc, ha⟩ := ih ⟨r.state, r.fusion.withReadings x.1 x.2, r.accepted,
      r.state.Status :: r.returned⟩ h
    exact ⟨r1, by simp [AutoRun.run, htick, h1], hs, hm, hc, ha⟩

end RunLemmas

/-! ## Rounded arithmetic with the identity rounding -/

section RoundedExact

variable {α : Type} [LinearOrderedField α] {Q : Type}

/-- With the identity rounding, the rounded acceptance test is the exact one. -/
theorem IsAcceptableSampleR_id (L : MathLib α Q) (s : MagCalibration α Q) (q : Q)
    (m : Vector3 α) : IsAcceptableSampleR id L s q m = IsAcceptableSample L s q m :=
  rfl

/-- With the identity rounding, the rounded insertion is the exact one. -/
theorem InsertIfAcceptableR_id (L : MathLib α Q) (s : MagCalibration α Q) (q : Q)
    (m : Vector3 α) : InsertIfAcceptableR id L s q m = InsertIfAcceptable L s q m :=
  rfl

/-- With the identity rounding, the rounded determinant `m11` is the exact one. -/
theorem m11R_id (p1 p2 p3 p4 : Vector3 α) : m11R id p1 p2 p3 p4 = m11 p1 p2 p3 p4 :=
  rfl

/-- With the identity rounding, where the assertion `m11 != 0.0f` holds, the
sphere center of the build without assertions is that of the build with them. -/
theorem CalculateSphereCenterR_id (u : Vector3 α) (p1 p2 p3 p4 c : Vector3 α)
    (h : CalculateSphereCenter p1 p2 p3 p4 = some c) :
    CalculateSphereCenterR id u p1 p2 p3 p4 = c := by
  have hm : m11 p1 p2 p3 p4 ≠ 0 := by
    intro h0
    simp [CalculateSphereCenter, h0] at h
  have hc := CalculateSphereCenter_of_ne p1 p2 p3 p4 hm
  rw [hc] at h
  have hR : CalculateSphereCenterR id u p1 p2 p3 p4 =
      ⟨(1 / 2) / m11 p1 p2 p3 p4 * m12 p1 p2 p3 p4,
        -((1 / 2) / m11 p1 p2 p3 p4) * m13 p1 p2 p3 p4,
        (1 / 2) / m11 p1 p2 p3 p4 * m14 p1 p2 p3 p4⟩ := by
    unfold CalculateSphereCenterR
    rw [m11R_id, if_neg hm]
    rfl
  rw [hR]
  exact Option.some.inj h

/-- With the identity rounding, a `SetCalibration` call that passes the
assertion is the call of the build without assertions. -/
theorem SetCalibrationR_id (u : Vector3 α) (s : MagCalibration α Q) (sf : SensorFusion α Q)
    (out : Bool × MagCalibration α Q × SensorFusion α Q) (h : SetCalibration s sf = some out) :
    SetCalibrationR id u s sf = out := by
  unfold SetCalibration at h
  unfold SetCalibrationR
  by_cases h4 : s.SampleCount < 4
  · rw [if_pos h4] at h
    rw [if_pos h4]
    exact Option.some.inj h
  · rw [if_neg h4] at h
    rw [if_neg h4]
    cases hc : CalculateSphereCenter s.MagSamples.at0 s.MagSamples.at1 s.MagSamples.at2
        s.MagSamples.at3 with
    | none => simp [hc] at h
    | some c =>
      simp only [hc, Option.bind_eq_bind, Option.some_bind, Option.some.injEq] at h
      rw [CalculateSphereCenterR_id u _ _ _ _ c hc]
      exact h

/-- With the identity rounding, an `UpdateAutoCalibration` call that passes the
assertion is the call of the build without assertions. -/
theorem UpdateAutoCalibrationR_id (u : Vector3 α) (L : MathLib α Q) (s : MagCalibration α Q)
    (sf : SensorFusion α Q) (out : MagStatus × MagCalibration α Q × SensorFusion α Q)
    (h : UpdateAutoCalibration L s sf = some out) :
    UpdateAutoCalibrationR id u L s sf = some out := by
  unfold UpdateAutoCalibration at h
  unfold UpdateAutoCalibrationR
  by_cases hst : s.Status ≠ Mag_AutoCalibrating
  · rw [if_pos hst] at h
    rw [if_pos hst]
    exact h
  · rw [if_neg hst] at h
    rw [if_neg hst]
    dsimp only at h ⊢
    rw [InsertIfAcceptableR_id]
    cases hins : InsertIfAcceptable L s sf.GetOrientation sf.GetMagnetometer with
    | none => simp [hins] at h
    | some ins =>
      simp only [hins, Option.bind_eq_bind, Option.some_bind] at h ⊢
      by_cases h4 : ins.2.SampleCount = 4 ∧ ins.2.Status = Mag_AutoCalibrating
      · rw [if_pos h4] at h
        rw [if_pos h4]
        cases hset : SetCalibration ins.2 sf with
        | none => simp [hset] at h
        | some o =>
          simp only [hset, Option.some_bind] at h
          rw [SetCalibrationR_id u _ _ o hset]
          exact h
      · rw [if_neg h4] at h
        rw [if_neg h4]
        exact h

/-- With the identity rounding, a run in which every call passes the assertion
is the run of the build without assertions. -/
theorem runR_id (u : Vector3 α) (L : MathLib α Q) (xs : List (Q × Vector3 α))
    (p p1 : AutoRun α Q) (h : AutoRun.run L p xs = some p1) :
    AutoRun.runR id u L p xs = some p1 := by
  induction xs generalizing p with
  | nil => exact h
  | cons x xs ih =>
    simp only [AutoRun.run] at h
    cases ht : p.tick L x with
    | none => simp [ht] at h
    | some p2 =>
      rw [ht, Option.some_bind] at h
      have htR : p.tickR id u L x = some p2 := by
        unfold AutoRun.tick at ht
        unfold AutoRun.tickR
        cases hu : UpdateAutoCalibration L p.state (p.fusion.withReadings x.1 x.2) with
        | none => simp [hu] at ht
        | some out =>
          dsimp only at ht ⊢
          rw [UpdateAutoCalibrationR_id u L _ _ out hu]
          simp only [hu, Option.bind_eq_bind, Option.some_bind] at ht ⊢
          exact ht
      simp only [AutoRun.runR, htR, Option.some_bind]
      exact ih p2 h

end RoundedExact

/-! ## Runs in rounded arithmetic -/

section RoundedRunLemmas

variable {α : Type} [LinearOrderedField α] {Q : Type}

/-- In rounded arithmetic too, an acceptable sample is only found with fewer
than four stored samples. -/
theorem IsAcceptableSampleR_count_lt (r : α → α) (L : MathLib α Q) (s : MagCalibration α Q)
    (q : Q) (m : Vector3 α) (h : IsAcceptableSampleR r L s q m = true) : s.SampleCount < 4 := by
  by_contra hge
  obtain ⟨k, hk⟩ : ∃ k, s.SampleCount = k + 4 := ⟨s.SampleCount - 4, by omega⟩
  simp [IsAcceptableSampleR, hk] at h

/-- The state after `InsertIfAcceptableR` stored an acceptable sample `(q, m)`
at index `SampleCount`. -/
theorem InsertIfAcceptableR_accept (r : α → α) (L : MathLib α Q) (s : MagCalibration α Q)
    (q : Q) (m : Vector3 α) (h : IsAcceptableSampleR r L s q m = true) :
    ∃ ms qs, s.MagSamples.set s.SampleCount m = some ms ∧
      s.QuatSamples.set s.SampleCount q = some qs ∧
      InsertIfAcceptableR r L s q m =
        some (true, { s with MagSamples := ms, QuatSamples := qs,
                             SampleCount := s.SampleCount + 1 }) := by
  have hlt := IsAcceptableSampleR_count_lt r L s q m h
  have hc : s.SampleCount = 0 ∨ s.SampleCount = 1 ∨ s.SampleCount = 2 ∨ s.SampleCount = 3 := by
    omega
  rcases hc with hc | hc | hc | hc <;>
    simp [InsertIfAcceptableR, h, hc, Array4.set]

/-- A rejected sample leaves the calibrator as it was, in rounded arithmetic too. -/
theorem InsertIfAcceptableR_reject (r : α → α) (L : MathLib α Q) (s : MagCalibration α Q)
    (q : Q) (m : Vector3 α) (h : IsAcceptableSampleR r L s q m = false) :
    InsertIfAcceptableR r L s q m = some (false, s) := by
  simp [InsertIfAcceptableR, h]

/-- The flag `acceptsSampleR` holds exactly when the call is in the automatic
calibration and its `InsertIfAcceptableR` stores the sample and returns true. -/
theorem acceptsSampleR_iff (r : α → α) (L : MathLib α Q) (s : MagCalibration α Q)
    (sf : SensorFusion α Q) :
    acceptsSampleR r L s sf = true ↔
      s.Status = Mag_AutoCalibrating ∧
      ∃ s1, InsertIfAcceptableR r L s sf.GetOrientation sf.GetMagnetometer = some (true, s1) := by
  unfold acceptsSampleR
  cases hacc : IsAcceptableSampleR r L s sf.GetOrientation sf.GetMagnetometer
  · simp [InsertIfAcceptableR_reject r L s _ _ hacc]
  · obtain ⟨ms, qs, -, -, hins⟩ := InsertIfAcceptableR_accept r L s _ _ hacc
    simp [hins]

/-- One tick in rounded arithmetic from a state satisfying the invariant: the
call returns, keeps the invariant, counts the sample if it accepts it, returns
the new status, and moves to `Mag_Calibrated` exactly when it accepts the fourth
sample. -/
theorem tickR_inv (r : α → α) (u : Vector3 α) (L : MathLib α Q) (p : AutoRun α Q)
    (x : Q × Vector3 α) (hinv : RunInvR p) :
    ∃ p1, p.tickR r u L x = some p1 ∧ RunInvR p1 ∧
      p1.accepted = p.accepted +
        (if acceptsSampleR r L p.state (p.fusion.withReadings x.1 x.2) then 1 else 0) ∧
      p1.returned = p1.state.Status :: p.returned ∧
      (p1.state.Status = Mag_Calibrated ∧ p.state.Status = Mag_AutoCalibrating ↔
        p.accepted = 3 ∧ acceptsSampleR r L p.state (p.fusion.withReadings x.1 x.2) = true) := by
  obtain ⟨hcount, hcase⟩ := hinv
  rcases hcase with ⟨hst, hlt⟩ | ⟨hst, h4⟩
  · -- still collecting
    cases hacc : IsAcceptableSampleR r L p.state x.1 x.2
    · -- the sample is rejected
      have hne : ¬ p.state.SampleCount = 4 := by omega
      refine ⟨⟨p.state, p.fusion.withReadings x.1 x.2, p.accepted,
          Mag_AutoCalibrating :: p.returned⟩, ?_,
        ⟨hcount, Or.inl ⟨hst, hlt⟩⟩, ?_, by simp [hst], ?_⟩
      · simp [AutoRun.tickR, UpdateAutoCalibrationR, hst, acceptsSampleR,
          SensorFusion.GetOrientation, SensorFusion.GetMagnetometer, SensorFusion.withReadings,
          InsertIfAcceptableR, hacc, hne]
      · simp [hst, acceptsSampleR, SensorFusion.GetOrientation, SensorFusion.GetMagnetometer,
          SensorFusion.withReadings, hacc]
      · simp [hst, acceptsSampleR, SensorFusion.GetOrientation, SensorFusion.GetMagnetometer,
          SensorFusion.withReadings, hacc]
    · -- the sample is accepted
      obtain ⟨ms, qs, hms, hqs, hins⟩ := InsertIfAcceptableR_accept r L p.state x.1 x.2 hacc
      by_cases h3 : p.state.SampleCount = 3
      · -- it is the fourth sample
        refine ⟨⟨{ p.state with
                    MagSamples := ms, QuatSamples := qs, SampleCount := p.state.SampleCount + 1,
                    MagCenter := CalculateSphereCenterR r u ms.at0 ms.at1 ms.at2 ms.at3,
                    Status := Mag_Calibrated },
                  (p.fusion.withReadings x.1 x.2).SetMagCalibration
                    (calMat (CalculateSphereCenterR r u ms.at0 ms.at1 ms.at2 ms.at3)),
                  p.accepted + 1, Mag_Calibrated :: p.returned⟩,
          ?_, ⟨?_, Or.inr ⟨rfl, ?_⟩⟩, ?_, rfl, ?_⟩
        · simp [AutoRun.tickR, UpdateAutoCalibrationR, hst, acceptsSampleR,
            SensorFusion.GetOrientation, SensorFusion.GetMagnetometer, SensorFusion.withReadings,
            hins, hacc, h3, SetCalibrationR, SensorFusion.SetMagCalibration]
        · simp [hcount]
        · simp only; omega
        · simp [hst, acceptsSampleR, SensorFusion.GetOrientation, SensorFusion.GetMagnetometer,
            SensorFusion.withReadings, hacc]
        · simp [hst, acceptsSampleR, SensorFusion.GetOrientation, SensorFusion.GetMagnetometer,
            SensorFusion.withReadings, hacc]
          omega
      · -- fewer than four samples are stored afterwards
        have hne : ¬ p.state.SampleCount + 1 = 4 := by omega
        refine ⟨⟨{ p.state with
                    MagSamples := ms, QuatSamples := qs, SampleCount := p.state.SampleCount + 1 },
                  p.fusion.withReadings x.1 x.2, p.accepted + 1,
                  Mag_AutoCalibrating :: p.returned⟩,
          ?_, ⟨?_, Or.inl ⟨hst, ?_⟩⟩, ?_, by simp [hst], ?_⟩
        · simp [AutoRun.tickR, UpdateAutoCalibrationR, hst, acceptsSampleR,
            SensorFusion.GetOrientation, SensorFusion.GetMagnetometer, SensorFusion.withReadings,
            hins, hacc, hne]
        · simp [hcount]
        · simp only; omega
        · simp [hst, acceptsSampleR, SensorFusion.GetOrientation, SensorFusion.GetMagnetometer,
            SensorFusion.withReadings, hacc]
        · simp [hst]
          intro h; omega
  · -- already calibrated
    have hne : p.state.Status ≠ Mag_AutoCalibrating := by simp [hst]
    refine ⟨⟨p.state, p.fusion.withReadings x.1 x.2, p.accepted,
        Mag_Calibrated :: p.returned⟩, ?_,
      ⟨hcount, Or.inr ⟨hst, h4⟩⟩, ?_, by simp [hst], ?_⟩
    · simp [AutoRun.tickR, UpdateAutoCalibrationR, acceptsSampleR, hst]
    · simp [acceptsSampleR, hst]
    · simp [hst, h4]

/-- A run over the readings `xs ++ ys` is a run over `xs` followed by one over `ys`. -/
theorem runR_append (r : α → α) (u : Vector3 α) (L : MathLib α Q)
    (xs ys : List (Q × Vector3 α)) (p : AutoRun α Q) :
    AutoRun.runR r u L p (xs ++ ys) =
      (AutoRun.runR r u L p xs).bind (fun p1 => AutoRun.runR r u L p1 ys) := by
  induction xs generalizing p with
  | nil => simp [AutoRun.runR]
  | cons x xs ih =>
    simp only [List.cons_append, AutoRun.runR]
    cases p.tickR r u L x with
    | none => simp
    | some p1 => simpa using ih p1

/-- Every run in rounded arithmetic from a state satisfying the invariant
returns and keeps the invariant. -/
theorem runR_inv (r : α → α) (u : Vector3 α) (L : MathLib α Q) (xs : List (Q × Vector3 α))
    (p : AutoRun α Q) (hinv : RunInvR p) :
    ∃ p1, AutoRun.runR r u L p xs = some p1 ∧ RunInvR p1 := by
  induction xs generalizing p with
  | nil => exact ⟨p, rfl, hinv⟩
  | cons x xs ih =>
    obtain ⟨p1, h1, hinv1, -, -, -⟩ := tickR_inv r u L p x hinv
    obtain ⟨p2, h2, hinv2⟩ := ih p1 hinv1
    exact ⟨p2, by simp [AutoRun.runR, h1, h2], hinv2⟩

/-- The invariant holds right after `BeginAutoCalibration`. -/
theorem begin_invR (s : MagCalibration α Q) (sf : SensorFusion α Q) :
    RunInvR { state := (BeginAutoCalibration s sf).1, fusion := (BeginAutoCalibration s sf).2,
              accepted := 0, returned := [] } := by
  simp [RunInvR, BeginAutoCalibration]

end RoundedRunLemmas

/-! ## Evaluation in binary32 -/

section RoundedEvaluation

/-- The rounding `fl32` at known values: `0.1f` and `0.3f` are `0x3dcccccd` and
`0x3e99999a`; a `float` is its own rounding; the integers `2^24 + 1` and
`2^24 + 3`, halfway between two `float`s, go to the even significand. -/
theorem fl32_known_values :
    fl32 (1 / 10) = 13421773 / 134217728 ∧ fl32 (3 / 10) = 5033165 / 16777216 ∧
    fl32 (1 / 2) = 1 / 2 ∧ fl32 10001 = 10001 ∧ fl32 (-10001) = -10001 ∧
    fl32 16777217 = 16777216 ∧ fl32 16777219 = 16777220 := by
  refine ⟨?_, ?_, ?_, ?_, ?_, ?_, ?_⟩ <;> decide!

/-- The square root `fsqrt32` at known values: `sqrtf(2)` and `sqrtf(3)` are
`0x3fb504f3` and `0x3fddb3d7`, and the square root of a square is exact. -/
theorem fsqrt32_known_values :
    fsqrt32 2 = 11863283 / 8388608 ∧ fsqrt32 3 = 14529495 / 8388608 ∧
    fsqrt32 1 = 1 ∧ fsqrt32 (1 / 4) = 1 / 2 ∧ fsqrt32 0 = 0 := by
  refine ⟨?_, ?_, ?_, ?_, ?_⟩ <;> decide!

/-- An example run in binary32: four spread samples, the third offered twice, end
in `Mag_Calibrated` with center `(1/2, 1/2, 1)`, as in exact arithmetic (the
computed `m11` is not zero, so the vector given for `u` plays no role). -/
theorem example_runR_calibrates :
    (autoCalibrateR fl32 ⟨0, 0, 0⟩ (exampleLib ℚ fsqrt32)
      (exampleCalibration ℚ 7 Mag_Uninitialized (1 / 2)) (exampleFusion ℚ)
      [(0, ⟨0, 0, 0⟩), (1, ⟨1, 0, 0⟩), (2, ⟨0, 1, 0⟩), (2, ⟨0, 1, 0⟩), (3, ⟨0, 0, 2⟩)]).map
        (fun p => (p.state.Status, p.state.MagCenter, p.accepted, p.returned))
      = some (Mag_Calibrated, ⟨1 / 2, 1 / 2, 1⟩, 4,
          [Mag_Calibrated, Mag_AutoCalibrating, Mag_AutoCalibrating, Mag_AutoCalibrating,
            Mag_AutoCalibrating]) := by
  decide!

end RoundedEvaluation

/-! ## The claims -/

section SphereFitClaims

variable {α : Type} [LinearOrderedField α] {Q : Type}

/-- C1: in exact arithmetic, for every four points whose determinant `m11`
(rows `[x, y, z, 1]`) is non-zero, `CalculateSphereCenter` returns a point `c`
whose squared distances to the four points are all equal. -/
theorem CalculateSphereCenter_equidistant (p1 p2 p3 p4 : Vector3 α)
    (h : m11 p1 p2 p3 p4 ≠ 0) :
    ∃ c, CalculateSphereCenter p1 p2 p3 p4 = some c ∧
      distSq c p1 = distSq c p2 ∧ distSq c p2 = distSq c p3 ∧ distSq c p3 = distSq c p4 :=
  ⟨_, CalculateSphereCenter_of_ne p1 p2 p3 p4 h,
    sphere_center_equidistant p1 p2 p3 p4 _ (CalculateSphereCenter_of_ne p1 p2 p3 p4 h)⟩

/-- Witness of C1 at the points `(1,2,3)`, `(-4,1,7)`, `(2,5,-1)`, `(3,3,8)`. -/
theorem CalculateSphereCenter_equidistant_witness :
    m11 (⟨1, 2, 3⟩ : Vector3 ℚ) ⟨-4, 1, 7⟩ ⟨2, 5, -1⟩ ⟨3, 3, 8⟩ ≠ 0 ∧
    ∃ c, CalculateSphereCenter (⟨1, 2, 3⟩ : Vector3 ℚ) ⟨-4, 1, 7⟩ ⟨2, 5, -1⟩ ⟨3, 3, 8⟩ = some c ∧
      distSq c ⟨1, 2, 3⟩ = distSq c ⟨-4, 1, 7⟩ ∧ distSq c ⟨-4, 1, 7⟩ = distSq c ⟨2, 5, -1⟩ ∧
      distSq c ⟨2, 5, -1⟩ = distSq c ⟨3, 3, 8⟩ :=
  ⟨by norm_num [m11, fillRows_det],
    CalculateSphereCenter_equidistant _ _ _ _ (by norm_num [m11, fillRows_det])⟩

/-- In exact arithmetic, with three stored samples and a non-negative
`MinMagDistance`, every candidate that `IsAcceptableSample` accepts is not
coplanar with the three stored fields: the exact determinant `m11` of the four
fields is non-zero, so after the insertion `SetCalibration` passes the assertion
and succeeds.  (The determinant that the code computes in binary32 can still
be zero for such a candidate.) -/
theorem accepted_fourth_sample_not_coplanar (L : MathLib α Q) (s : MagCalibration α Q) (q : Q)
    (m : Vector3 α) (h3 : s.SampleCount = 3) (ht : 0 ≤ s.MinMagDistance)
    (hacc : IsAcceptableSample L s q m = true) :
    m11 s.MagSamples.at0 s.MagSamples.at1 s.MagSamples.at2 m ≠ 0 ∧
    ∃ s1, InsertIfAcceptable L s q m = some (true, s1) ∧ s1.SampleCount = 4 ∧
      s1.MagSamples = ⟨s.MagSamples.at0, s.MagSamples.at1, s.MagSamples.at2, m⟩ ∧
      ∀ sf : SensorFusion α Q, ∃ s2 sf2, SetCalibration s1 sf = some (true, s2, sf2) := by
  have hm := accept_fourth_m11_ne L s q m h3 ht hacc
  obtain ⟨ms, qs, hms, -, hins⟩ := InsertIfAcceptable_accept L s q m hacc
  have hms3 : ms = ⟨s.MagSamples.at0, s.MagSamples.at1, s.MagSamples.at2, m⟩ := by
    simpa [h3, Array4.set] using hms.symm
  obtain ⟨c, hc⟩ : ∃ c, CalculateSphereCenter s.MagSamples.at0 s.MagSamples.at1
      s.MagSamples.at2 m = some c := ⟨_, CalculateSphereCenter_of_ne _ _ _ _ hm⟩
  refine ⟨hm, _, hins, by simp [h3], hms3, fun sf => ?_⟩
  subst hms3
  exact ⟨_, _, SetCalibration_full _ sf c (by simp [h3]) hc⟩

/-- The candidate field `(0,0,2)` with orientation `3` is accepted by the example
calibrator holding three samples, with threshold `1/2`. -/
theorem example_fourth_accepted :
    IsAcceptableSample (exampleLib ℝ Real.sqrt) (exampleCalibration ℝ 3 Mag_AutoCalibrating (1 / 2))
      3 ⟨0, 0, 2⟩ = true := by
  simp [IsAcceptableSample, exampleLib, exampleCalibration, exceeds, PointToPlaneDistance,
    Vector3.Normalize, Vector3.Length, Vector3.LengthSq, Vector3.Cross, Vector3.Dot]
  norm_num

/-- The exact statement `accepted_fourth_sample_not_coplanar` at the example
calibrator with three samples and the candidate `(0,0,2)`. -/
theorem accepted_fourth_sample_not_coplanar_witness :
    (exampleCalibration ℝ 3 Mag_AutoCalibrating (1 / 2)).SampleCount = 3 ∧
    (0 : ℝ) ≤ (exampleCalibration ℝ 3 Mag_AutoCalibrating (1 / 2)).MinMagDistance ∧
    IsAcceptableSample (exampleLib ℝ Real.sqrt) (exampleCalibration ℝ 3 Mag_AutoCalibrating (1 / 2))
      3 ⟨0, 0, 2⟩ = true ∧
    m11 (exampleCalibration ℝ 3 Mag_AutoCalibrating (1 / 2)).MagSamples.at0
      (exampleCalibration ℝ 3 Mag_AutoCalibrating (1 / 2)).MagSamples.at1
      (exampleCalibration ℝ 3 Mag_AutoCalibrating (1 / 2)).MagSamples.at2 ⟨0, 0, 2⟩ ≠ 0 ∧
    ∃ s1, InsertIfAcceptable (exampleLib ℝ Real.sqrt)
        (exampleCalibration ℝ 3 Mag_AutoCalibrating (1 / 2)) 3 ⟨0, 0, 2⟩ = some (true, s1) ∧
      s1.SampleCount = 4 ∧
      s1.MagSamples = ⟨(exampleCalibration ℝ 3 Mag_AutoCalibrating (1 / 2)).MagSamples.at0,
        (exampleCalibration ℝ 3 Mag_AutoCalibrating (1 / 2)).MagSamples.at1,
        (exampleCalibration ℝ 3 Mag_AutoCalibrating (1 / 2)).MagSamples.at2, ⟨0, 0, 2⟩⟩ ∧
      ∀ sf : SensorFusion ℝ ℝ, ∃ s2 sf2, SetCalibration s1 sf = some (true, s2, sf2) :=
  ⟨rfl, by norm_num [exampleCalibration], example_fourth_accepted,
    accepted_fourth_sample_not_coplanar (exampleLib ℝ Real.sqrt)
      (exampleCalibration ℝ 3 Mag_AutoCalibrating (1 / 2)) 3 ⟨0, 0, 2⟩ rfl
      (by norm_num [exampleCalibration]) example_fourth_accepted⟩

/-- C2, at the failing input: in binary32 the calibrator holding the fields
`(10000,10000,10000)`, `(10001,10000,10000)`, `(10000,10001,10000)` with
threshold `1/2` accepts the candidate field `(10000,10000,10001)`, whose
distance to the plane of the three stored fields is computed as `1`; the
determinant `m11` that `CalculateSphereCenter` computes for the four fields is
`0`, so `m11 != 0.0f` is false, although the four fields are not coplanar: the
exact determinant is `-1`. -/
theorem accepted_fourth_sample_m11_rounds_to_zero :
    IsAcceptableSampleR fl32 (exampleLib ℚ fsqrt32) exampleFarCalibration 3
      ⟨10000, 10000, 10001⟩ = true ∧
    PointToPlaneDistanceR fl32 fsqrt32 exampleFarCalibration.MagSamples.at0
      exampleFarCalibration.MagSamples.at1 exampleFarCalibration.MagSamples.at2
      ⟨10000, 10000, 10001⟩ = some 1 ∧
    m11R fl32 exampleFarCalibration.MagSamples.at0 exampleFarCalibration.MagSamples.at1
      exampleFarCalibration.MagSamples.at2 ⟨10000, 10000, 10001⟩ = 0 ∧
    m11 exampleFarCalibration.MagSamples.at0 exampleFarCalibration.MagSamples.at1
      exampleFarCalibration.MagSamples.at2 ⟨10000, 10000, 10001⟩ = -1 := by
  refine ⟨?_, ?_, ?_, ?_⟩ <;> decide!

end SphereFitClaims

section RunClaims

variable {α : Type} [LinearOrderedField α] {Q : Type}

/-- C3: starting from `BeginAutoCalibration` with a non-negative
`MinMagDistance`, every finite sequence of `UpdateAutoCalibration` calls with
arbitrary readings returns, and if it ends with `Status = Mag_Calibrated` the
stored `MagCenter` is at the same squared distance from the four stored fields
`MagSamples[0..3]`. -/
theorem autoCalibrate_center_equidistant (L : MathLib α Q) (s : MagCalibration α Q)
    (sf : SensorFusion α Q) (xs : List (Q × Vector3 α)) (ht : 0 ≤ s.MinMagDistance) :
    ∃ r, autoCalibrate L s sf xs = some r ∧
      (r.state.Status = Mag_Calibrated →
        distSq r.state.MagCenter r.state.MagSamples.at0
            = distSq r.state.MagCenter r.state.MagSamples.at1 ∧
          distSq r.state.MagCenter r.state.MagSamples.at1
            = distSq r.state.MagCenter r.state.MagSamples.at2 ∧
          distSq r.state.MagCenter r.state.MagSamples.at2
            = distSq r.state.MagCenter r.state.MagSamples.at3) := by
  obtain ⟨r, hr, -, -, hcase⟩ := run_inv L xs _
    (show 0 ≤ (BeginAutoCalibration s sf).1.MinMagDistance from ht) (begin_inv s sf)
  refine ⟨r, hr, fun hcal => ?_⟩
  rcases hcase with ⟨hst, -⟩ | ⟨-, -, heq⟩
  · rw [hst] at hcal
    cases hcal
  · exact heq

/-- An example run over the rationals (`Rat.sqrt` is exact on the squares that
occur): four spread samples, the third offered twice, end in `Mag_Calibrated`
with center `(1/2, 1/2, 1)`. -/
theorem example_run_calibrates :
    (autoCalibrate (exampleLib ℚ Rat.sqrt) (exampleCalibration ℚ 7 Mag_Uninitialized (1 / 2))
      (exampleFusion ℚ)
      [(0, ⟨0, 0, 0⟩), (1, ⟨1, 0, 0⟩), (2, ⟨0, 1, 0⟩), (2, ⟨0, 1, 0⟩), (3, ⟨0, 0, 2⟩)]).map
        (fun r => (r.state.Status, r.state.MagCenter, r.accepted))
      = some (Mag_Calibrated, ⟨1 / 2, 1 / 2, 1⟩, 4) := by
  decide!

/-- Witness of C3: the example run, which ends calibrated. -/
theorem autoCalibrate_center_equidistant_witness :
    (0 : ℚ) ≤ (exampleCalibration ℚ 7 Mag_Uninitialized (1 / 2)).MinMagDistance ∧
    ∃ r, autoCalibrate (exampleLib ℚ Rat.sqrt) (exampleCalibration ℚ 7 Mag_Uninitialized (1 / 2))
        (exampleFusion ℚ)
        [(0, ⟨0, 0, 0⟩), (1, ⟨1, 0, 0⟩), (2, ⟨0, 1, 0⟩), (2, ⟨0, 1, 0⟩), (3, ⟨0, 0, 2⟩)] = some r ∧
      r.state.Status = Mag_Calibrated ∧
      distSq r.state.MagCenter r.state.MagSamples.at0
          = distSq r.state.MagCenter r.state.MagSamples.at1 ∧
      distSq r.state.MagCenter r.state.MagSamples.at1
          = distSq r.state.MagCenter r.state.MagSamples.at2 ∧
      distSq r.state.MagCenter r.state.MagSamples.at2
          = distSq r.state.MagCenter r.state.MagSamples.at3 := by
  have h0 : (0 : ℚ) ≤ (exampleCalibration ℚ 7 Mag_Uninitialized (1 / 2)).MinMagDistance := by
    norm_num [exampleCalibration]
  obtain ⟨r, hr, himp⟩ := autoCalibrate_center_equidistant (exampleLib ℚ Rat.sqrt)
    (exampleCalibration ℚ 7 Mag_Uninitialized (1 / 2)) (exampleFusion ℚ)
    [(0, ⟨0, 0, 0⟩), (1, ⟨1, 0, 0⟩), (2, ⟨0, 1, 0⟩), (2, ⟨0, 1, 0⟩), (3, ⟨0, 0, 2⟩)] h0
  have hst : r.state.Status = Mag_Calibrated := by
    have h := example_run_calibrates
    rw [hr] at h
    simp only [Option.map_some', Option.some.injEq, Prod.mk.injEq] at h
    exact h.1
  exact ⟨h0, r, hr, hst, himp hst⟩

/-- C4: starting from `BeginAutoCalibration`, every finite sequence of
`UpdateAutoCalibration` calls returns, in exact arithmetic and in any rounded
arithmetic alike; afterwards the status is `Mag_Calibrated` exactly when four
samples have been accepted and `Mag_AutoCalibrating` exactly when fewer than
four have; one more call counts its sample if it accepts it, returns the status
it leaves, and moves the status from `Mag_AutoCalibrating` to `Mag_Calibrated`
exactly when it accepts the fourth sample. -/
theorem autoCalibrate_calibrated_iff_four_accepted (r : α → α) (u : Vector3 α)
    (L : MathLib α Q) (s : MagCalibration α Q) (sf : SensorFusion α Q)
    (xs : List (Q × Vector3 α)) :
    ∃ p, autoCalibrateR r u L s sf xs = some p ∧
      p.state.SampleCount = p.accepted ∧
      (p.state.Status = Mag_Calibrated ↔ p.accepted = 4) ∧
      (p.state.Status = Mag_AutoCalibrating ↔ p.accepted < 4) ∧
      ∀ x : Q × Vector3 α, ∃ p1, autoCalibrateR r u L s sf (xs ++ [x]) = some p1 ∧
        p1.accepted = p.accepted +
          (if acceptsSampleR r L p.state (p.fusion.withReadings x.1 x.2) then 1 else 0) ∧
        p1.returned = p1.state.Status :: p.returned ∧
        (p1.state.Status = Mag_Calibrated ∧ p.state.Status = Mag_AutoCalibrating ↔
          p.accepted = 3 ∧
            acceptsSampleR r L p.state (p.fusion.withReadings x.1 x.2) = true) := by
  obtain ⟨p, hp, hinv⟩ := runR_inv r u L xs _ (begin_invR s sf)
  refine ⟨p, hp, hinv.1, ?_, ?_, fun x => ?_⟩
  · rcases hinv.2 with ⟨hst, hlt⟩ | ⟨hst, h4⟩
    · simp [hst]; omega
    · simp [hst, h4]
  · rcases hinv.2 with ⟨hst, hlt⟩ | ⟨hst, h4⟩
    · simp [hst, hlt]
    · simp [hst, h4]
  · obtain ⟨p1, h1, -, hacc, hret, htrans⟩ := tickR_inv r u L p x hinv
    refine ⟨p1, ?_, hacc, hret, htrans⟩
    unfold autoCalibrateR
    rw [runR_append, hp]
    simp [AutoRun.runR, h1]

end RunClaims

section OperationClaims

variable {α : Type} [LinearOrderedField α] {Q : Type}

/-- C5: in every state whose status is not `Mag_AutoCalibrating`, and for every
reading of the collaborator, `UpdateAutoCalibration` returns the current status
and leaves the calibrator (status, count, samples, `MagCenter`) and the
collaborator (installed calibration, received calls) unchanged; a second call
gives the same result as the first, and so does any finite sequence of calls
with arbitrary readings. -/
theorem UpdateAutoCalibration_noop (L : MathLib α Q) (s : MagCalibration α Q)
    (sf : SensorFusion α Q) (h : s.Status ≠ Mag_AutoCalibrating) :
    UpdateAutoCalibration L s sf = some (s.Status, s, sf) ∧
    (∀ (q : Q) (m : Vector3 α),
      UpdateAutoCalibration L s (sf.withReadings q m) = some (s.Status, s, sf.withReadings q m) ∧
      (sf.withReadings q m).MagCalibrationMatrix = sf.MagCalibrationMatrix ∧
      (sf.withReadings q m).Calls = sf.Calls) ∧
    (UpdateAutoCalibration L s sf).bind (fun o => UpdateAutoCalibration L o.2.1 o.2.2)
      = UpdateAutoCalibration L s sf ∧
    ∀ (xs : List (Q × Vector3 α)) (n : Nat) (rets : List MagStatus),
      ∃ r1, AutoRun.run L ⟨s, sf, n, rets⟩ xs = some r1 ∧ r1.state = s ∧
        r1.fusion.MagCalibrationMatrix = sf.MagCalibrationMatrix ∧
        r1.fusion.Calls = sf.Calls := by
  refine ⟨UpdateAutoCalibration_idle L s sf h,
    fun q m => ⟨UpdateAutoCalibration_idle L s _ h, rfl, rfl⟩, ?_, fun xs n rets => ?_⟩
  · simp [UpdateAutoCalibration_idle L s sf h]
  · obtain ⟨r1, h1, hs, hm, hc, -⟩ := run_idle L xs ⟨s, sf, n, rets⟩ h
    exact ⟨r1, h1, hs, hm, hc⟩

/-- Witness of C5: the example calibrator in status `Mag_Calibrated`. -/
theorem UpdateAutoCalibration_noop_witness :
    (exampleCalibration ℚ 4 Mag_Calibrated (1 / 2)).Status ≠ Mag_AutoCalibrating ∧
    UpdateAutoCalibration (exampleLib ℚ Rat.sqrt) (exampleCalibration ℚ 4 Mag_Calibrated (1 / 2))
        (exampleFusion ℚ)
      = some ((exampleCalibration ℚ 4 Mag_Calibrated (1 / 2)).Status,
          exampleCalibration ℚ 4 Mag_Calibrated (1 / 2), exampleFusion ℚ) :=
  ⟨by simp [exampleCalibration],
    (UpdateAutoCalibration_noop (exampleLib ℚ Rat.sqrt)
      (exampleCalibration ℚ 4 Mag_Calibrated (1 / 2)) (exampleFusion ℚ)
      (by simp [exampleCalibration])).1⟩

/-- C6: with fewer than four samples `SetCalibration` returns false and changes
neither the calibrator nor the collaborator (no `SetMagCalibration` call). -/
theorem SetCalibration_too_few (s : MagCalibration α Q) (sf : SensorFusion α Q)
    (h : s.SampleCount < 4) : SetCalibration s sf = some (false, s, sf) := by
  simp [SetCalibration, h]

/-- Witness of C6: the empty buffer in the uninitialized state. -/
theorem SetCalibration_too_few_witness :
    (exampleCalibration ℚ 0 Mag_Uninitialized (1 / 2)).SampleCount < 4 ∧
    SetCalibration (exampleCalibration ℚ 0 Mag_Uninitialized (1 / 2)) (exampleFusion ℚ)
      = some (false, exampleCalibration ℚ 0 Mag_Uninitialized (1 / 2), exampleFusion ℚ) :=
  ⟨by simp [exampleCalibration],
    SetCalibration_too_few (exampleCalibration ℚ 0 Mag_Uninitialized (1 / 2)) (exampleFusion ℚ)
      (by simp [exampleCalibration])⟩

/-- The entries of the matrix `calMat c`: the identity, except for `-c.x`,
`-c.y`, `-c.z` at the top of the last column. -/
theorem calMat_entries (c : Vector3 α) :
    (calMat c).M 0 3 = -c.x ∧ (calMat c).M 1 3 = -c.y ∧ (calMat c).M 2 3 = -c.z ∧
    ∀ i j : Fin 4, (j ≠ 3 ∨ i = 3) → (calMat c).M i j = if i = j then 1 else 0 := by
  refine ⟨by simp [calMat, Matrix4.set], by simp [calMat, Matrix4.set],
    by simp [calMat, Matrix4.set], fun i j h => ?_⟩
  rcases h with h | h
  · simp [calMat, Matrix4.set, Matrix4.identity, h]
  · subst h
    simp [calMat, Matrix4.set, Matrix4.identity]

/-- C7: with at least four samples and non-coplanar stored fields (`m11 ≠ 0`),
`SetCalibration` returns true, stores `MagCenter = CalculateSphereCenter
(MagSamples[0..3])`, sets the status to `Mag_Calibrated`, and installs in the
collaborator the matrix that is the identity except for `-MagCenter.x`,
`-MagCenter.y`, `-MagCenter.z` at the top of its last column; the same center and
matrix result for any other stored orientations. -/
theorem SetCalibration_success (s : MagCalibration α Q) (sf : SensorFusion α Q)
    (h4 : 4 ≤ s.SampleCount)
    (hm : m11 s.MagSamples.at0 s.MagSamples.at1 s.MagSamples.at2 s.MagSamples.at3 ≠ 0) :
    ∃ c, CalculateSphereCenter s.MagSamples.at0 s.MagSamples.at1 s.MagSamples.at2
        s.MagSamples.at3 = some c ∧
      SetCalibration s sf =
        some (true, { s with MagCenter := c, Status := Mag_Calibrated },
          { sf with MagCalibrationMatrix := calMat c,
                    Calls := SFCall.SetMagCalibration (calMat c) :: sf.Calls }) ∧
      ((calMat c).M 0 3 = -c.x ∧ (calMat c).M 1 3 = -c.y ∧ (calMat c).M 2 3 = -c.z ∧
        ∀ i j : Fin 4, (j ≠ 3 ∨ i = 3) → (calMat c).M i j = if i = j then 1 else 0) ∧
      ∀ qs : Array4 Q, SetCalibration { s with QuatSamples := qs } sf =
        some (true, { s with QuatSamples := qs, MagCenter := c, Status := Mag_Calibrated },
          { sf with MagCalibrationMatrix := calMat c,
                    Calls := SFCall.SetMagCalibration (calMat c) :: sf.Calls }) := by
  obtain ⟨c, hc⟩ : ∃ c, CalculateSphereCenter s.MagSamples.at0 s.MagSamples.at1
      s.MagSamples.at2 s.MagSamples.at3 = some c := ⟨_, CalculateSphereCenter_of_ne _ _ _ _ hm⟩
  exact ⟨c, hc, SetCalibration_full s sf c h4 hc, calMat_entries c,
    fun qs => SetCalibration_full { s with QuatSamples := qs } sf c h4 hc⟩

/-- Witness of C7: the example calibrator holding the origin and the three unit
points, whose sphere center is `(1/2, 1/2, 1/2)`. -/
theorem SetCalibration_success_witness :
    4 ≤ (exampleCalibration ℚ 4 Mag_AutoCalibrating (1 / 2)).SampleCount ∧
    m11 (exampleCalibration ℚ 4 Mag_AutoCalibrating (1 / 2)).MagSamples.at0
      (exampleCalibration ℚ 4 Mag_AutoCalibrating (1 / 2)).MagSamples.at1
      (exampleCalibration ℚ 4 Mag_AutoCalibrating (1 / 2)).MagSamples.at2
      (exampleCalibration ℚ 4 Mag_AutoCalibrating (1 / 2)).MagSamples.at3 ≠ 0 ∧
    ∃ c, CalculateSphereCenter (exampleCalibration ℚ 4 Mag_AutoCalibrating (1 / 2)).MagSamples.at0
        (exampleCalibration ℚ 4 Mag_AutoCalibrating (1 / 2)).MagSamples.at1
        (exampleCalibration ℚ 4 Mag_AutoCalibrating (1 / 2)).MagSamples.at2
        (exampleCalibration ℚ 4 Mag_AutoCalibrating (1 / 2)).MagSamples.at3 = some c ∧
      SetCalibration (exampleCalibration ℚ 4 Mag_AutoCalibrating (1 / 2)) (exampleFusion ℚ) =
        some (true,
          { exampleCalibration ℚ 4 Mag_AutoCalibrating (1 / 2) with
            MagCenter := c, Status := Mag_Calibrated },
          { exampleFusion ℚ with
            MagCalibrationMatrix := calMat c,
            Calls := SFCall.SetMagCalibration (calMat c) :: (exampleFusion ℚ).Calls }) := by
  have h4 : 4 ≤ (exampleCalibration ℚ 4 Mag_AutoCalibrating (1 / 2)).SampleCount := by
    simp [exampleCalibration]
  have hm : m11 (exampleCalibration ℚ 4 Mag_AutoCalibrating (1 / 2)).MagSamples.at0
      (exampleCalibration ℚ 4 Mag_AutoCalibrating (1 / 2)).MagSamples.at1
      (exampleCalibration ℚ 4 Mag_AutoCalibrating (1 / 2)).MagSamples.at2
      (exampleCalibration ℚ 4 Mag_AutoCalibrating (1 / 2)).MagSamples.at3 ≠ 0 := by
    norm_num [exampleCalibration, m11, fillRows_det]
  obtain ⟨c, hc, hset, -, -⟩ := SetCalibration_success
    (exampleCalibration ℚ 4 Mag_AutoCalibrating (1 / 2)) (exampleFusion ℚ) h4 hm
  exact ⟨h4, hm, c, hc, hset⟩

/-- C8: from every state, `BeginAutoCalibration` leaves `SampleCount = 0` and
`Status = Mag_AutoCalibrating` and issues `ClearMagCalibration` to the
collaborator; `BeginManualCalibration` does the same with
`Status = Mag_ManuallyCalibrating`; neither touches anything else. -/
theorem Begin_calibration_effects (s : MagCalibration α Q) (sf : SensorFusion α Q) :
    (BeginAutoCalibration s sf).1 = { s with SampleCount := 0, Status := Mag_AutoCalibrating } ∧
    (BeginAutoCalibration s sf).2 = sf.ClearMagCalibration ∧
    (BeginAutoCalibration s sf).2.Calls = SFCall.ClearMagCalibration :: sf.Calls ∧
    (BeginManualCalibration s sf).1
      = { s with SampleCount := 0, Status := Mag_ManuallyCalibrating } ∧
    (BeginManualCalibration s sf).2 = sf.ClearMagCalibration ∧
    (BeginManualCalibration s sf).2.Calls = SFCall.ClearMagCalibration :: sf.Calls :=
  ⟨rfl, rfl, rfl, rfl, rfl, rfl⟩

end OperationClaims

section FewSamplesClaims

/-- For a non-negative threshold `d`, the squared length of `v` exceeds `d * d`
exactly when the Euclidean length of `v` exceeds `d`. -/
theorem lengthSq_gt_iff (v : Vector3 ℝ) (d : ℝ) (hd : 0 ≤ d) :
    v.LengthSq > d * d ↔ v.Length Real.sqrt > d := by
  unfold Vector3.Length
  rw [gt_iff_lt, gt_iff_lt, Real.lt_sqrt hd, sq]

/-- In exact real arithmetic, with `n ∈ {0, 1, 2}` stored samples,
`MinMagDistanceSq = MinMagDistance²` and a non-negative `MinMagDistance`, a
candidate is accepted exactly when, for every stored index `i < n`, the
orientation squared distance exceeds `MinQuatDistanceSq` and the Euclidean
distance between `m` and `MagSamples[i]` exceeds `MinMagDistance`. -/
theorem IsAcceptableSample_few_exact {Q : Type} (L : MathLib ℝ Q) (s : MagCalibration ℝ Q)
    (q : Q) (m : Vector3 ℝ) (hn : s.SampleCount ≤ 2)
    (hsq : s.MinMagDistanceSq = s.MinMagDistance * s.MinMagDistance)
    (hd : 0 ≤ s.MinMagDistance) :
    IsAcceptableSample L s q m = true ↔
      ∀ i : Fin 4, i.val < s.SampleCount →
        L.DistanceSq q (s.QuatSamples.get i) > s.MinQuatDistanceSq ∧
        (m - s.MagSamples.get i).Length Real.sqrt > s.MinMagDistance := by
  have hc : s.SampleCount = 0 ∨ s.SampleCount = 1 ∨ s.SampleCount = 2 := by omega
  have key := fun v : Vector3 ℝ => lengthSq_gt_iff v s.MinMagDistance hd
  rcases hc with hc | hc | hc
  · simp [IsAcceptableSample, hc]
  · simp only [IsAcceptableSample, hc, Bool.and_eq_true, decide_eq_true_eq, hsq, key,
      Fin.forall_fin_succ, Array4.get]
    simp
  · simp only [IsAcceptableSample, hc, Bool.and_eq_true, decide_eq_true_eq, hsq, key,
      Fin.forall_fin_succ, Array4.get]
    simp
    tauto

/-- C9, amended: with `n ∈ {0, 1, 2}` stored samples, in exact arithmetic and in
any rounded arithmetic alike, a candidate `(q, m)` is accepted exactly when, for
every stored index `i < n`, the orientation squared distance to `QuatSamples[i]`
exceeds `MinQuatDistanceSq` and the squared length `(m - MagSamples[i]).LengthSq()`,
as the code computes it, exceeds `MinMagDistanceSq`; with `n = 0` every candidate
is accepted.  In exact real arithmetic, with `MinMagDistanceSq = MinMagDistance²`
and a non-negative `MinMagDistance`, the field test is the same as the Euclidean
distance between `m` and `MagSamples[i]` exceeding `MinMagDistance`. -/
theorem IsAcceptableSample_few_iff_squared {α : Type} [LinearOrderedField α] {Q : Type}
    (r : α → α) (L : MathLib α Q) (s : MagCalibration α Q) (q : Q) (m : Vector3 α)
    (hn : s.SampleCount ≤ 2) :
    (IsAcceptableSampleR r L s q m = true ↔
      ∀ i : Fin 4, i.val < s.SampleCount →
        L.DistanceSq q (s.QuatSamples.get i) > s.MinQuatDistanceSq ∧
        (Vector3.subR r m (s.MagSamples.get i)).LengthSqR r > s.MinMagDistanceSq) ∧
    (s.SampleCount = 0 → IsAcceptableSampleR r L s q m = true) ∧
    (∀ (Qe : Type) (Le : MathLib ℝ Qe) (se : MagCalibration ℝ Qe) (qe : Qe) (me : Vector3 ℝ),
      se.SampleCount ≤ 2 → se.MinMagDistanceSq = se.MinMagDistance * se.MinMagDistance →
      0 ≤ se.MinMagDistance →
      (IsAcceptableSampleR id Le se qe me = true ↔
        ∀ i : Fin 4, i.val < se.SampleCount →
          Le.DistanceSq qe (se.QuatSamples.get i) > se.MinQuatDistanceSq ∧
          (me - se.MagSamples.get i).Length Real.sqrt > se.MinMagDistance)) := by
  refine ⟨?_, ?_, ?_⟩
  · have hc : s.SampleCount = 0 ∨ s.SampleCount = 1 ∨ s.SampleCount = 2 := by omega
    rcases hc with hc | hc | hc
    · simp [IsAcceptableSampleR, hc]
    · simp only [IsAcceptableSampleR, hc, Bool.and_eq_true, decide_eq_true_eq,
        Fin.forall_fin_succ, Array4.get]
      simp
    · simp only [IsAcceptableSampleR, hc, Bool.and_eq_true, decide_eq_true_eq,
        Fin.forall_fin_succ, Array4.get]
      simp
      tauto
  · intro h0
    simp [IsAcceptableSampleR, h0]
  · intro Qe Le se qe me hne hsq hd
    rw [IsAcceptableSampleR_id]
    exact IsAcceptableSample_few_exact Le se qe me hne hsq hd

/-- Witness of C9, amended: in binary32, the example calibrator with two
stored samples and threshold `1/2` and the candidate field `(0,0,1)` at
orientation `2`; in exact real arithmetic, the same calibrator and candidate. -/
theorem IsAcceptableSample_few_iff_squared_witness :
    (exampleCalibration ℚ 2 Mag_AutoCalibrating (1 / 2)).SampleCount ≤ 2 ∧
    (IsAcceptableSampleR fl32 (exampleLib ℚ fsqrt32)
        (exampleCalibration ℚ 2 Mag_AutoCalibrating (1 / 2)) 2 ⟨0, 0, 1⟩ = true ↔
      ∀ i : Fin 4, i.val < (exampleCalibration ℚ 2 Mag_AutoCalibrating (1 / 2)).SampleCount →
        (exampleLib ℚ fsqrt32).DistanceSq 2
            ((exampleCalibration ℚ 2 Mag_AutoCalibrating (1 / 2)).QuatSamples.get i)
          > (exampleCalibration ℚ 2 Mag_AutoCalibrating (1 / 2)).MinQuatDistanceSq ∧
        (Vector3.subR fl32 ⟨0, 0, 1⟩
            ((exampleCalibration ℚ 2 Mag_AutoCalibrating (1 / 2)).MagSamples.get i)).LengthSqR fl32
          > (exampleCalibration ℚ 2 Mag_AutoCalibrating (1 / 2)).MinMagDistanceSq) ∧
    IsAcceptableSampleR fl32 (exampleLib ℚ fsqrt32)
        (exampleCalibration ℚ 2 Mag_AutoCalibrating (1 / 2)) 2 ⟨0, 0, 1⟩ = true ∧
    (exampleCalibration ℝ 2 Mag_AutoCalibrating (1 / 2)).MinMagDistanceSq
      = (exampleCalibration ℝ 2 Mag_AutoCalibrating (1 / 2)).MinMagDistance
        * (exampleCalibration ℝ 2 Mag_AutoCalibrating (1 / 2)).MinMagDistance ∧
    (0 : ℝ) ≤ (exampleCalibration ℝ 2 Mag_AutoCalibrating (1 / 2)).MinMagDistance ∧
    (IsAcceptableSampleR id (exampleLib ℝ Real.sqrt)
        (exampleCalibration ℝ 2 Mag_AutoCalibrating (1 / 2)) 2 ⟨0, 0, 1⟩ = true ↔
      ∀ i : Fin 4, i.val < (exampleCalibration ℝ 2 Mag_AutoCalibrating (1 / 2)).SampleCount →
        (exampleLib ℝ Real.sqrt).DistanceSq 2
            ((exampleCalibration ℝ 2 Mag_AutoCalibrating (1 / 2)).QuatSamples.get i)
          > (exampleCalibration ℝ 2 Mag_AutoCalibrating (1 / 2)).MinQuatDistanceSq ∧
        ((⟨0, 0, 1⟩ : Vector3 ℝ)
            - (exampleCalibration ℝ 2 Mag_AutoCalibrating (1 / 2)).MagSamples.get i).Length
              Real.sqrt
          > (exampleCalibration ℝ 2 Mag_AutoCalibrating (1 / 2)).MinMagDistance) :=
  ⟨by decide,
    (IsAcceptableSample_few_iff_squared fl32 (exampleLib ℚ fsqrt32)
      (exampleCalibration ℚ 2 Mag_AutoCalibrating (1 / 2)) 2 ⟨0, 0, 1⟩ (by decide)).1,
    by decide!, rfl, by norm_num [exampleCalibration],
    (IsAcceptableSample_few_iff_squared fl32 (exampleLib ℚ fsqrt32)
      (exampleCalibration ℚ 2 Mag_AutoCalibrating (1 / 2)) 2 ⟨0, 0, 1⟩ (by decide)).2.2
      ℝ (exampleLib ℝ Real.sqrt) (exampleCalibration ℝ 2 Mag_AutoCalibrating (1 / 2)) 2 ⟨0, 0, 1⟩
      (by simp [exampleCalibration]) rfl (by norm_num [exampleCalibration])⟩

/-- C9 as stated fails in binary32 at a positive threshold: with one stored
sample, field `(0,0,0)` at orientation `0`, `MinMagDistance = 1/2` and
`MinMagDistanceSq = 1/4`, the candidate field `(7933163/2^24, 681619/2^22, 0)`
(its coordinates are `float`s) at orientation `1` is rejected, because the
squared length is computed as exactly `1/4`; yet its orientation squared distance
`1` exceeds `1/4` and its Euclidean distance to the stored field exceeds `1/2`. -/
theorem IsAcceptableSample_rounded_square_rejects :
    fl32 (7933163 / 16777216) = 7933163 / 16777216 ∧
    fl32 (681619 / 4194304) = 681619 / 4194304 ∧
    (exampleCalibration ℚ 1 Mag_AutoCalibrating (1 / 2)).SampleCount = 1 ∧
    IsAcceptableSampleR fl32 (exampleLib ℚ fsqrt32)
      (exampleCalibration ℚ 1 Mag_AutoCalibrating (1 / 2)) 1
      ⟨7933163 / 16777216, 681619 / 4194304, 0⟩ = false ∧
    (Vector3.subR fl32 ⟨7933163 / 16777216, 681619 / 4194304, 0⟩
      ((exampleCalibration ℚ 1 Mag_AutoCalibrating (1 / 2)).MagSamples.get 0)).LengthSqR fl32
      = (exampleCalibration ℚ 1 Mag_AutoCalibrating (1 / 2)).MinMagDistanceSq ∧
    (exampleLib ℚ fsqrt32).DistanceSq 1
        ((exampleCalibration ℚ 1 Mag_AutoCalibrating (1 / 2)).QuatSamples.get 0)
      > (exampleCalibration ℚ 1 Mag_AutoCalibrating (1 / 2)).MinQuatDistanceSq ∧
    ((⟨7933163 / 16777216, 681619 / 4194304, 0⟩ : Vector3 ℝ)
        - (exampleCalibration ℝ 1 Mag_AutoCalibrating (1 / 2)).MagSamples.get 0).Length Real.sqrt
      > (exampleCalibration ℝ 1 Mag_AutoCalibrating (1 / 2)).MinMagDistance := by
  refine ⟨by decide!, by decide!, rfl, by decide!, by decide!, by decide!, ?_⟩
  have h0 : (0 : ℝ) ≤ 1 / 2 := by norm_num
  simp only [Vector3.Length, exampleCalibration, Array4.get, gt_iff_lt]
  rw [Real.lt_sqrt h0]
  show (1 / 2 : ℝ) ^ 2 < (Vector3.sub _ _).LengthSq
  norm_num [Vector3.sub, Vector3.LengthSq]

end FewSamplesClaims

section AcceptanceClaims

variable {α : Type} [LinearOrderedField α] {Q : Type}

/-- A property of some index in `Fin 4`, listed in the order of the four tests
of `IsAcceptableSample`. -/
theorem exists_fin_four (P : Fin 4 → Prop) : (∃ k, P k) ↔ ((P 3 ∨ P 0) ∨ P 1) ∨ P 2 := by
  constructor
  · rintro ⟨k, hk⟩
    fin_cases k
    · exact Or.inl (Or.inl (Or.inr hk))
    · exact Or.inl (Or.inr hk)
    · exact Or.inr hk
    · exact Or.inl (Or.inl (Or.inl hk))
  · rintro (((h | h) | h) | h) <;> exact ⟨_, h⟩

/-- C10: with exactly three stored samples, a candidate `(q, m)` is accepted
exactly when its orientation squared distance to each of `QuatSamples[0..2]`
exceeds `MinQuatDistanceSq` and, among the four points `MagSamples[0]`,
`MagSamples[1]`, `MagSamples[2]`, `m`, some point `k` has a
`PointToPlaneDistance` to the plane through the other three (taken in cyclic
order after `k`) that exceeds `MinMagDistance`. -/
theorem IsAcceptableSample_three_iff (L : MathLib α Q) (s : MagCalibration α Q) (q : Q)
    (m : Vector3 α) (h3 : s.SampleCount = 3) :
    IsAcceptableSample L s q m = true ↔
      (∀ i : Fin 4, i.val < 3 → L.DistanceSq q (s.QuatSamples.get i) > s.MinQuatDistanceSq) ∧
      ∃ k : Fin 4, ∃ d,
        PointToPlaneDistance L.sqrt
          (pointArray s.MagSamples.at0 s.MagSamples.at1 s.MagSamples.at2 m (k + 1))
          (pointArray s.MagSamples.at0 s.MagSamples.at1 s.MagSamples.at2 m (k + 2))
          (pointArray s.MagSamples.at0 s.MagSamples.at1 s.MagSamples.at2 m (k + 3))
          (pointArray s.MagSamples.at0 s.MagSamples.at1 s.MagSamples.at2 m k) = some d ∧
        d > s.MinMagDistance := by
  have hq : (∀ i : Fin 4, i.val < 3 →
        L.DistanceSq q (s.QuatSamples.get i) > s.MinQuatDistanceSq) ↔
      (L.DistanceSq q s.QuatSamples.at0 > s.MinQuatDistanceSq ∧
        L.DistanceSq q s.QuatSamples.at1 > s.MinQuatDistanceSq) ∧
        L.DistanceSq q s.QuatSamples.at2 > s.MinQuatDistanceSq := by
    constructor
    · intro h
      exact ⟨⟨h 0 (by decide), h 1 (by decide)⟩, h 2 (by decide)⟩
    · rintro ⟨⟨h0, h1⟩, h2⟩ i hi
      fin_cases i
      · exact h0
      · exact h1
      · exact h2
      · exact absurd hi (by decide)
  rw [hq, exists_fin_four]
  simp only [IsAcceptableSample, h3, Bool.and_eq_true, Bool.or_eq_true, decide_eq_true_eq,
    exceeds_iff]
  rfl

/-- Witness of C10: the example calibrator with three samples and the candidate
`(0,0,2)` at orientation `3`. -/
theorem IsAcceptableSample_three_iff_witness :
    (exampleCalibration ℝ 3 Mag_AutoCalibrating (1 / 2)).SampleCount = 3 ∧
    (IsAcceptableSample (exampleLib ℝ Real.sqrt)
        (exampleCalibration ℝ 3 Mag_AutoCalibrating (1 / 2)) 3 ⟨0, 0, 2⟩ = true ↔
      (∀ i : Fin 4, i.val < 3 →
        (exampleLib ℝ Real.sqrt).DistanceSq 3
            ((exampleCalibration ℝ 3 Mag_AutoCalibrating (1 / 2)).QuatSamples.get i)
          > (exampleCalibration ℝ 3 Mag_AutoCalibrating (1 / 2)).MinQuatDistanceSq) ∧
      ∃ k : Fin 4, ∃ d,
        PointToPlaneDistance (exampleLib ℝ Real.sqrt).sqrt
          (pointArray (exampleCalibration ℝ 3 Mag_AutoCalibrating (1 / 2)).MagSamples.at0
            (exampleCalibration ℝ 3 Mag_AutoCalibrating (1 / 2)).MagSamples.at1
            (exampleCalibration ℝ 3 Mag_AutoCalibrating (1 / 2)).MagSamples.at2 ⟨0, 0, 2⟩ (k + 1))
          (pointArray (exampleCalibration ℝ 3 Mag_AutoCalibrating (1 / 2)).MagSamples.at0
            (exampleCalibration ℝ 3 Mag_AutoCalibrating (1 / 2)).MagSamples.at1
            (exampleCalibration ℝ 3 Mag_AutoCalibrating (1 / 2)).MagSamples.at2 ⟨0, 0, 2⟩ (k + 2))
          (pointArray (exampleCalibration ℝ 3 Mag_AutoCalibrating (1 / 2)).MagSamples.at0
            (exampleCalibration ℝ 3 Mag_AutoCalibrating (1 / 2)).MagSamples.at1
            (exampleCalibration ℝ 3 Mag_AutoCalibrating (1 / 2)).MagSamples.at2 ⟨0, 0, 2⟩ (k + 3))
          (pointArray (exampleCalibration ℝ 3 Mag_AutoCalibrating (1 / 2)).MagSamples.at0
            (exampleCalibration ℝ 3 Mag_AutoCalibrating (1 / 2)).MagSamples.at1
            (exampleCalibration ℝ 3 Mag_AutoCalibrating (1 / 2)).MagSamples.at2 ⟨0, 0, 2⟩ k)
          = some d ∧
        d > (exampleCalibration ℝ 3 Mag_AutoCalibrating (1 / 2)).MinMagDistance) :=
  ⟨rfl, IsAcceptableSample_three_iff (exampleLib ℝ Real.sqrt)
    (exampleCalibration ℝ 3 Mag_AutoCalibrating (1 / 2)) 3 ⟨0, 0, 2⟩ rfl⟩

end AcceptanceClaims

section BufferClaims

variable {α : Type} [LinearOrderedField α] {Q : Type}

/-- C14: in rational arithmetic `CalculateSphereCenter` of `(1,0,0)`, `(0,1,0)`,
`(0,0,1)`, `(0,0,0)` is exactly `(1/2, 1/2, 1/2)`, and the squared distance from
that center to each of the four points is `3/4`, the square of a radius between
`0.866` and `0.867`. -/
theorem CalculateSphereCenter_unit_tetrahedron :
    CalculateSphereCenter (⟨1, 0, 0⟩ : Vector3 ℚ) ⟨0, 1, 0⟩ ⟨0, 0, 1⟩ ⟨0, 0, 0⟩
      = some ⟨1 / 2, 1 / 2, 1 / 2⟩ ∧
    distSq (⟨1 / 2, 1 / 2, 1 / 2⟩ : Vector3 ℚ) ⟨1, 0, 0⟩ = 3 / 4 ∧
    distSq (⟨1 / 2, 1 / 2, 1 / 2⟩ : Vector3 ℚ) ⟨0, 1, 0⟩ = 3 / 4 ∧
    distSq (⟨1 / 2, 1 / 2, 1 / 2⟩ : Vector3 ℚ) ⟨0, 0, 1⟩ = 3 / 4 ∧
    distSq (⟨1 / 2, 1 / 2, 1 / 2⟩ : Vector3 ℚ) ⟨0, 0, 0⟩ = 3 / 4 ∧
    (866 / 1000 : ℚ) * (866 / 1000) < 3 / 4 ∧ (3 / 4 : ℚ) < (867 / 1000) * (867 / 1000) := by
  refine ⟨?_, ?_, ?_, ?_, ?_, by norm_num, by norm_num⟩
  · have h : m11 (⟨1, 0, 0⟩ : Vector3 ℚ) ⟨0, 1, 0⟩ ⟨0, 0, 1⟩ ⟨0, 0, 0⟩ ≠ 0 := by
      norm_num [m11, fillRows_det]
    rw [CalculateSphereCenter_of_ne _ _ _ _ h]
    norm_num [m11, m12, m13, m14, fillRows_det, sqNorm]
  all_goals norm_num [distSq, Vector3.LengthSq]

/-- With four or more samples counted, no candidate is acceptable. -/
theorem IsAcceptableSample_full (L : MathLib α Q) (s : MagCalibration α Q) (q : Q)
    (m : Vector3 α) (h : 4 ≤ s.SampleCount) : IsAcceptableSample L s q m = false := by
  cases hacc : IsAcceptableSample L s q m
  · rfl
  · have := IsAcceptableSample_count_lt L s q m hacc
    omega

/-- C18: when the buffer is full (`SampleCount = 4`, or any count outside
`0..3`), `IsAcceptableSample` returns false for every candidate, and
`InsertIfAcceptable` returns false and leaves the whole calibrator, its count
and stored samples included, as it was. -/
theorem InsertIfAcceptable_full (L : MathLib α Q) (s : MagCalibration α Q) (q : Q)
    (m : Vector3 α) (h : 4 ≤ s.SampleCount) :
    IsAcceptableSample L s q m = false ∧ InsertIfAcceptable L s q m = some (false, s) :=
  ⟨IsAcceptableSample_full L s q m h,
    InsertIfAcceptable_reject L s q m (IsAcceptableSample_full L s q m h)⟩

/-- Witness of C18: the example calibrator with a full buffer. -/
theorem InsertIfAcceptable_full_witness :
    4 ≤ (exampleCalibration ℚ 4 Mag_ManuallyCalibrating (1 / 2)).SampleCount ∧
    IsAcceptableSample (exampleLib ℚ Rat.sqrt)
      (exampleCalibration ℚ 4 Mag_ManuallyCalibrating (1 / 2)) 9 ⟨5, 5, 5⟩ = false ∧
    InsertIfAcceptable (exampleLib ℚ Rat.sqrt)
      (exampleCalibration ℚ 4 Mag_ManuallyCalibrating (1 / 2)) 9 ⟨5, 5, 5⟩
      = some (false, exampleCalibration ℚ 4 Mag_ManuallyCalibrating (1 / 2)) :=
  ⟨by simp [exampleCalibration],
    InsertIfAcceptable_full (exampleLib ℚ Rat.sqrt)
      (exampleCalibration ℚ 4 Mag_ManuallyCalibrating (1 / 2)) 9 ⟨5, 5, 5⟩
      (by simp [exampleCalibration])⟩

/-- The outcome of `InsertIfAcceptable`: it always returns, either having stored
the sample at an index `SampleCount < 4` and counted it, or having changed
nothing. -/
theorem InsertIfAcceptable_cases (L : MathLib α Q) (s : MagCalibration α Q) (q : Q)
    (m : Vector3 α) :
    (IsAcceptableSample L s q m = false ∧ InsertIfAcceptable L s q m = some (false, s)) ∨
    (IsAcceptableSample L s q m = true ∧ s.SampleCount < 4 ∧
      ∃ ms qs, s.MagSamples.set s.SampleCount m = some ms ∧
        s.QuatSamples.set s.SampleCount q = some qs ∧
        InsertIfAcceptable L s q m =
          some (true, { s with MagSamples := ms, QuatSamples := qs,
                               SampleCount := s.SampleCount + 1 })) := by
  cases hacc : IsAcceptableSample L s q m
  · exact Or.inl ⟨rfl, InsertIfAcceptable_reject L s q m hacc⟩
  · exact Or.inr ⟨rfl, IsAcceptableSample_count_lt L s q m hacc,
      InsertIfAcceptable_accept L s q m hacc⟩

/-- `SetCalibration`, when it returns, leaves the count and the stored samples
as they were. -/
theorem SetCalibration_frame (s s1 : MagCalibration α Q) (sf sf1 : SensorFusion α Q) (b : Bool)
    (h : SetCalibration s sf = some (b, s1, sf1)) :
    s1.SampleCount = s.SampleCount ∧ s1.MagSamples = s.MagSamples ∧
      s1.QuatSamples = s.QuatSamples := by
  unfold SetCalibration at h
  split at h
  · simp only [Option.some.injEq, Prod.mk.injEq] at h
    obtain ⟨-, hs, -⟩ := h
    subst hs
    exact ⟨rfl, rfl, rfl⟩
  · cases hc : CalculateSphereCenter s.MagSamples.at0 s.MagSamples.at1 s.MagSamples.at2
        s.MagSamples.at3 with
    | none => simp [hc] at h
    | some c =>
      simp only [hc, Option.bind_eq_bind, Option.some_bind, Option.some.injEq,
        Prod.mk.injEq] at h
      obtain ⟨-, hs, -⟩ := h
      subst hs
      exact ⟨rfl, rfl, rfl⟩

/-- `UpdateAutoCalibration`, when it returns, leaves the calibrator with the
count and samples that its `InsertIfAcceptable` left, or untouched when the
status is not `Mag_AutoCalibrating`. -/
theorem UpdateAutoCalibration_frame (L : MathLib α Q) (s s1 : MagCalibration α Q)
    (sf sf1 : SensorFusion α Q) (st : MagStatus)
    (h : UpdateAutoCalibration L s sf = some (st, s1, sf1)) :
    (s1.SampleCount = s.SampleCount ∧ s1.MagSamples = s.MagSamples ∧
      s1.QuatSamples = s.QuatSamples) ∨
    ∃ b s2, InsertIfAcceptable L s sf.GetOrientation sf.GetMagnetometer = some (b, s2) ∧
      s1.SampleCount = s2.SampleCount ∧ s1.MagSamples = s2.MagSamples ∧
      s1.QuatSamples = s2.QuatSamples := by
  unfold UpdateAutoCalibration at h
  split at h
  · simp only [Option.some.injEq, Prod.mk.injEq] at h
    obtain ⟨-, hs, -⟩ := h
    subst hs
    exact Or.inl ⟨rfl, rfl, rfl⟩
  · right
    cases hi : InsertIfAcceptable L s sf.GetOrientation sf.GetMagnetometer with
    | none => simp [hi] at h
    | some r =>
      obtain ⟨b, s2⟩ := r
      refine ⟨b, s2, rfl, ?_⟩
      simp only [hi, Option.bind_eq_bind, Option.some_bind] at h
      split at h
      · cases hset : SetCalibration s2 sf with
        | none => simp [hset] at h
        | some r2 =>
          obtain ⟨b2, s3, sf3⟩ := r2
          simp only [hset, Option.some_bind, Option.some.injEq, Prod.mk.injEq] at h
          obtain ⟨-, hs, -⟩ := h
          subst hs
          exact SetCalibration_frame s2 s3 sf sf3 b2 hset
      · simp only [Option.some.injEq, Prod.mk.injEq] at h
        obtain ⟨-, hs, -⟩ := h
        subst hs
        exact ⟨rfl, rfl, rfl⟩

/-- A write inside the array changes the written slot and no other. -/
theorem Array4.get_set {T : Type} (a a1 : Array4 T) (n : Nat) (v : T) (hn : n < 4)
    (h : a.set n v = some a1) :
    a1.get ⟨n, hn⟩ = v ∧ ∀ i : Fin 4, i.val ≠ n → a1.get i = a.get i := by
  have hc : n = 0 ∨ n = 1 ∨ n = 2 ∨ n = 3 := by omega
  rcases hc with hc | hc | hc | hc <;> subst hc <;>
    simp only [Array4.set, Option.some.injEq] at h <;> subst h <;>
    refine ⟨rfl, fun i hi => ?_⟩ <;> fin_cases i <;> first | rfl | exact absurd rfl hi

/-- C15: `SampleCount ≤ 4` is preserved by every operation from every state
satisfying it and for every input: `BeginAutoCalibration` and
`BeginManualCalibration` leave the count `0`; `InsertIfAcceptable` always
returns, with a count of at most `4`, and stores a sample only when the index
`SampleCount` it writes at is below `4`; `SetCalibration` and
`UpdateAutoCalibration`, whenever they return (that is, unless the assertion of
`CalculateSphereCenter` fails), leave a count of at most `4`. -/
theorem SampleCount_le_four (L : MathLib α Q) (s : MagCalibration α Q) (sf : SensorFusion α Q)
    (q : Q) (m : Vector3 α) (h : s.SampleCount ≤ 4) :
    (BeginAutoCalibration s sf).1.SampleCount = 0 ∧
    (BeginManualCalibration s sf).1.SampleCount = 0 ∧
    (∃ b s1, InsertIfAcceptable L s q m = some (b, s1) ∧ s1.SampleCount ≤ 4) ∧
    (IsAcceptableSample L s q m = true → s.SampleCount < 4 ∧
      ∃ ms qs, s.MagSamples.set s.SampleCount m = some ms ∧
        s.QuatSamples.set s.SampleCount q = some qs) ∧
    (∀ b s1 sf1, SetCalibration s sf = some (b, s1, sf1) → s1.SampleCount ≤ 4) ∧
    (∀ st s1 sf1, UpdateAutoCalibration L s sf = some (st, s1, sf1) → s1.SampleCount ≤ 4) := by
  have hins : ∀ (q : Q) (m : Vector3 α),
      ∃ b s1, InsertIfAcceptable L s q m = some (b, s1) ∧ s1.SampleCount ≤ 4 := by
    intro q m
    rcases InsertIfAcceptable_cases L s q m with ⟨-, hrej⟩ | ⟨-, hlt, ms, qs, -, -, hacc⟩
    · exact ⟨false, s, hrej, h⟩
    · exact ⟨true, _, hacc, by simp only; omega⟩
  refine ⟨rfl, rfl, hins q m, fun hacc => ?_, fun b s1 sf1 hset => ?_,
    fun st s1 sf1 hupd => ?_⟩
  · obtain ⟨ms, qs, hms, hqs, -⟩ := InsertIfAcceptable_accept L s q m hacc
    exact ⟨IsAcceptableSample_count_lt L s q m hacc, ms, qs, hms, hqs⟩
  · rw [(SetCalibration_frame s s1 sf sf1 b hset).1]
    exact h
  · rcases UpdateAutoCalibration_frame L s s1 sf sf1 st hupd with ⟨hc, -, -⟩ |
      ⟨b, s2, hi, hc, -, -⟩
    · rw [hc]
      exact h
    · obtain ⟨b', s2', hi', hle⟩ := hins sf.GetOrientation sf.GetMagnetometer
      rw [hi] at hi'
      simp only [Option.some.injEq, Prod.mk.injEq] at hi'
      rw [hc, hi'.2]
      exact hle

/-- Witness of C15: the example calibrator holding three samples, which accepts
the candidate `(0,0,2)` at orientation `3`. -/
theorem SampleCount_le_four_witness :
    (exampleCalibration ℚ 3 Mag_AutoCalibrating (1 / 2)).SampleCount ≤ 4 ∧
    (∃ b s1, InsertIfAcceptable (exampleLib ℚ Rat.sqrt)
        (exampleCalibration ℚ 3 Mag_AutoCalibrating (1 / 2)) 3 ⟨0, 0, 2⟩ = some (b, s1) ∧
      s1.SampleCount ≤ 4) ∧
    (∀ st s1 sf1, UpdateAutoCalibration (exampleLib ℚ Rat.sqrt)
        (exampleCalibration ℚ 3 Mag_AutoCalibrating (1 / 2)) (exampleFusion ℚ)
        = some (st, s1, sf1) → s1.SampleCount ≤ 4) := by
  have h : (exampleCalibration ℚ 3 Mag_AutoCalibrating (1 / 2)).SampleCount ≤ 4 := by
    simp [exampleCalibration]
  obtain ⟨-, -, hins, -, -, hupd⟩ := SampleCount_le_four (exampleLib ℚ Rat.sqrt)
    (exampleCalibration ℚ 3 Mag_AutoCalibrating (1 / 2)) (exampleFusion ℚ) 3 ⟨0, 0, 2⟩ h
  exact ⟨h, hins, hupd⟩

/-- C16: on a buffer with count `n < 4`, `InsertIfAcceptable` with an acceptable
candidate returns true, stores `(q, m)` at index `n`, sets the count to `n+1`
and leaves every other slot, the status, `MagCenter` and the thresholds
unchanged; with a candidate that is not acceptable it returns false and leaves
the calibrator unchanged.  `SetCalibration` and `UpdateAutoCalibration`, when
they return, leave the samples stored at the indices below `n` unchanged. -/
theorem InsertIfAcceptable_effect (L : MathLib α Q) (s : MagCalibration α Q) (q : Q)
    (m : Vector3 α) (h : s.SampleCount < 4) :
    (IsAcceptableSample L s q m = true →
      ∃ s1, InsertIfAcceptable L s q m = some (true, s1) ∧
        s1.SampleCount = s.SampleCount + 1 ∧
        s1.MagSamples.get ⟨s.SampleCount, h⟩ = m ∧ s1.QuatSamples.get ⟨s.SampleCount, h⟩ = q ∧
        (∀ i : Fin 4, i.val ≠ s.SampleCount →
          s1.MagSamples.get i = s.MagSamples.get i ∧
          s1.QuatSamples.get i = s.QuatSamples.get i) ∧
        s1.Status = s.Status ∧ s1.MagCenter = s.MagCenter ∧
        s1.MinMagDistance = s.MinMagDistance ∧ s1.MinMagDistanceSq = s.MinMagDistanceSq ∧
        s1.MinQuatDistanceSq = s.MinQuatDistanceSq) ∧
    (IsAcceptableSample L s q m = false → InsertIfAcceptable L s q m = some (false, s)) ∧
    (∀ sf b s1 sf1, SetCalibration s sf = some (b, s1, sf1) →
      s1.MagSamples = s.MagSamples ∧ s1.QuatSamples = s.QuatSamples) ∧
    (∀ sf st s1 sf1, UpdateAutoCalibration L s sf = some (st, s1, sf1) →
      ∀ i : Fin 4, i.val < s.SampleCount →
        s1.MagSamples.get i = s.MagSamples.get i ∧
        s1.QuatSamples.get i = s.QuatSamples.get i) := by
  have hacc : ∀ (q : Q) (m : Vector3 α) (s1 : MagCalibration α Q),
      InsertIfAcceptable L s q m = some (true, s1) →
      s1.MagSamples.get ⟨s.SampleCount, h⟩ = m ∧ s1.QuatSamples.get ⟨s.SampleCount, h⟩ = q ∧
      ∀ i : Fin 4, i.val ≠ s.SampleCount →
        s1.MagSamples.get i = s.MagSamples.get i ∧
        s1.QuatSamples.get i = s.QuatSamples.get i := by
    intro q m s1 hs1
    rcases InsertIfAcceptable_cases L s q m with ⟨-, hrej⟩ | ⟨-, -, ms, qs, hms, hqs, hins⟩
    · rw [hrej] at hs1
      simp at hs1
    · rw [hins] at hs1
      simp only [Option.some.injEq, Prod.mk.injEq, true_and] at hs1
      subst hs1
      obtain ⟨hm1, hm2⟩ := Array4.get_set _ _ _ _ h hms
      obtain ⟨hq1, hq2⟩ := Array4.get_set _ _ _ _ h hqs
      exact ⟨hm1, hq1, fun i hi => ⟨hm2 i hi, hq2 i hi⟩⟩
  refine ⟨fun ha => ?_, InsertIfAcceptable_reject L s q m, fun sf b s1 sf1 hset => ?_,
    fun sf st s1 sf1 hupd i hi => ?_⟩
  · obtain ⟨ms, qs, hms, hqs, hins⟩ := InsertIfAcceptable_accept L s q m ha
    obtain ⟨h1, h2, h3⟩ := hacc q m _ hins
    exact ⟨_, hins, rfl, h1, h2, h3, rfl, rfl, rfl, rfl, rfl⟩
  · exact (SetCalibration_frame s s1 sf sf1 b hset).2
  · rcases UpdateAutoCalibration_frame L s s1 sf sf1 st hupd with ⟨-, hm, hq⟩ |
      ⟨b, s2, hins, -, hm, hq⟩
    · rw [hm, hq]
      exact ⟨rfl, rfl⟩
    · rw [hm, hq]
      rcases InsertIfAcceptable_cases L s sf.GetOrientation sf.GetMagnetometer with
        ⟨-, hrej⟩ | ⟨-, -, ms, qs, -, -, hins2⟩
      · rw [hrej] at hins
        simp only [Option.some.injEq, Prod.mk.injEq] at hins
        rw [← hins.2]
        exact ⟨rfl, rfl⟩
      · have hb : b = true := by
          rw [hins2] at hins
          simp only [Option.some.injEq, Prod.mk.injEq] at hins
          exact hins.1.symm
        subst hb
        exact (hacc _ _ s2 hins).2.2 i (by omega)

/-- Witness of C16: the example calibrator with two stored samples. -/
theorem InsertIfAcceptable_effect_witness :
    (exampleCalibration ℚ 2 Mag_AutoCalibrating (1 / 2)).SampleCount < 4 ∧
    (IsAcceptableSample (exampleLib ℚ Rat.sqrt)
        (exampleCalibration ℚ 2 Mag_AutoCalibrating (1 / 2)) 2 ⟨0, 0, 1⟩ = false →
      InsertIfAcceptable (exampleLib ℚ Rat.sqrt)
        (exampleCalibration ℚ 2 Mag_AutoCalibrating (1 / 2)) 2 ⟨0, 0, 1⟩
        = some (false, exampleCalibration ℚ 2 Mag_AutoCalibrating (1 / 2))) ∧
    ∃ s1, InsertIfAcceptable (exampleLib ℚ Rat.sqrt)
        (exampleCalibration ℚ 2 Mag_AutoCalibrating (1 / 2)) 2 ⟨0, 0, 1⟩ = some (true, s1) ∧
      s1.SampleCount = (exampleCalibration ℚ 2 Mag_AutoCalibrating (1 / 2)).SampleCount + 1 ∧
      s1.MagSamples.get 2 = ⟨0, 0, 1⟩ ∧ s1.QuatSamples.get 2 = 2 := by
  have h : (exampleCalibration ℚ 2 Mag_AutoCalibrating (1 / 2)).SampleCount < 4 := by
    simp [exampleCalibration]
  have hacc : IsAcceptableSample (exampleLib ℚ Rat.sqrt)
      (exampleCalibration ℚ 2 Mag_AutoCalibrating (1 / 2)) 2 ⟨0, 0, 1⟩ = true := by
    decide!
  obtain ⟨h1, h2, -, -⟩ := InsertIfAcceptable_effect (exampleLib ℚ Rat.sqrt)
    (exampleCalibration ℚ 2 Mag_AutoCalibrating (1 / 2)) 2 ⟨0, 0, 1⟩ h
  obtain ⟨s1, hs1, hc, hm, hq, -⟩ := h1 hacc
  exact ⟨h, h2, s1, hs1, hc, hm, hq⟩

end BufferClaims

section PlaneDistanceClaims

/-- A vector other than zero has a positive squared length. -/
theorem Vector3.LengthSq_pos {α : Type} [LinearOrderedField α] (v : Vector3 α)
    (hv : v ≠ ⟨0, 0, 0⟩) : 0 < v.LengthSq := by
  obtain ⟨x, y, z⟩ := v
  simp only [Vector3.LengthSq]
  by_contra hle
  have hx := mul_self_nonneg x
  have hy := mul_self_nonneg y
  have hz := mul_self_nonneg z
  have hx0 : x * x = 0 := by linarith
  have hy0 : y * y = 0 := by linarith
  have hz0 : z * z = 0 := by linarith
  apply hv
  rw [mul_self_eq_zero.mp hx0, mul_self_eq_zero.mp hy0, mul_self_eq_zero.mp hz0]

/-- The value of `PointToPlaneDistance` when the length `l` of the plane normal
is not zero. -/
theorem PointToPlaneDistance_of_ne {α : Type} [LinearOrderedField α] (sqrt : α → α)
    (p1 p2 p3 p4 : Vector3 α)
    (hl : ((p1 - p2).Cross (p1 - p3)).Length sqrt ≠ 0) :
    PointToPlaneDistance sqrt p1 p2 p3 p4 =
      some |(((p1 - p2).Cross (p1 - p3)).Dot p4 - ((p1 - p2).Cross (p1 - p3)).Dot p1)
        / ((p1 - p2).Cross (p1 - p3)).Length sqrt| := by
  simp only [PointToPlaneDistance, Vector3.Normalize, if_neg hl, Vector3.Dot]
  congr 2
  ring

/-- The value of `PointToPlaneDistance` when the length of the plane normal is zero. -/
theorem PointToPlaneDistance_of_eq {α : Type} [LinearOrderedField α] (sqrt : α → α)
    (p1 p2 p3 p4 : Vector3 α)
    (hl : ((p1 - p2).Cross (p1 - p3)).Length sqrt = 0) :
    PointToPlaneDistance sqrt p1 p2 p3 p4 = none := by
  simp only [PointToPlaneDistance, Vector3.Normalize, if_pos hl]

/-- The dot product with a difference. -/
theorem Vector3.Dot_sub {α : Type} [LinearOrderedField α] (n a b : Vector3 α) :
    n.Dot (a - b) = n.Dot a - n.Dot b := by
  simp only [Vector3.Dot, Vector3.sub_x, Vector3.sub_y, Vector3.sub_z]
  ring

/-- C11: over the reals, for non-collinear `p1, p2, p3` (the normal
`n = (p1-p2) × (p1-p3)` is not zero) and every `p4`, `PointToPlaneDistance` is
`|n · (p4 - p1)| / |n|`.  This value is non-negative; it is the length of the
segment from `p4` to the point `f` of the plane with `p4 - f` parallel to `n`;
and it is zero exactly when `p4` lies in the plane, that is, when
`p4 = p1 + a (p2 - p1) + b (p3 - p1)` for some `a`, `b`. -/
theorem PointToPlaneDistance_perpendicular (p1 p2 p3 p4 : Vector3 ℝ)
    (hn : (p1 - p2).Cross (p1 - p3) ≠ ⟨0, 0, 0⟩) :
    ∃ d, PointToPlaneDistance Real.sqrt p1 p2 p3 p4 = some d ∧
      d = |((p1 - p2).Cross (p1 - p3)).Dot (p4 - p1)|
        / ((p1 - p2).Cross (p1 - p3)).Length Real.sqrt ∧
      0 < ((p1 - p2).Cross (p1 - p3)).Length Real.sqrt ∧
      0 ≤ d ∧
      (∃ f : Vector3 ℝ, ((p1 - p2).Cross (p1 - p3)).Dot (f - p1) = 0 ∧
        (∃ k : ℝ, p4 - f = ⟨k * ((p1 - p2).Cross (p1 - p3)).x,
          k * ((p1 - p2).Cross (p1 - p3)).y, k * ((p1 - p2).Cross (p1 - p3)).z⟩) ∧
        distSq p4 f = d * d) ∧
      (d = 0 ↔ ∃ a b : ℝ, p4.x = p1.x + a * (p2.x - p1.x) + b * (p3.x - p1.x) ∧
        p4.y = p1.y + a * (p2.y - p1.y) + b * (p3.y - p1.y) ∧
        p4.z = p1.z + a * (p2.z - p1.z) + b * (p3.z - p1.z)) := by
  have hS : 0 < ((p1 - p2).Cross (p1 - p3)).LengthSq := Vector3.LengthSq_pos _ hn
  have hl : 0 < ((p1 - p2).Cross (p1 - p3)).Length Real.sqrt := Real.sqrt_pos.mpr hS
  have hll : ((p1 - p2).Cross (p1 - p3)).Length Real.sqrt
      * ((p1 - p2).Cross (p1 - p3)).Length Real.sqrt = ((p1 - p2).Cross (p1 - p3)).LengthSq :=
    Real.mul_self_sqrt hS.le
  have hd0 : 0 ≤ |((p1 - p2).Cross (p1 - p3)).Dot (p4 - p1)|
      / ((p1 - p2).Cross (p1 - p3)).Length Real.sqrt := div_nonneg (abs_nonneg _) hl.le
  refine ⟨_, ?_, rfl, hl, hd0, ?_, ?_⟩
  · rw [PointToPlaneDistance_of_ne Real.sqrt p1 p2 p3 p4 hl.ne', abs_div, abs_of_pos hl,
      Vector3.Dot_sub]
  · -- the foot of the perpendicular
    generalize hN : ((p1 - p2).Cross (p1 - p3)).Dot (p4 - p1) = N
    generalize hL : ((p1 - p2).Cross (p1 - p3)).Length Real.sqrt = l at hl hll
    generalize hnn : (p1 - p2).Cross (p1 - p3) = n at hS hll hN
    have hS' : n.LengthSq ≠ 0 := hS.ne'
    refine ⟨⟨p4.x - N / n.LengthSq * n.x, p4.y - N / n.LengthSq * n.y,
      p4.z - N / n.LengthSq * n.z⟩, ?_, ⟨N / n.LengthSq, ?_⟩, ?_⟩
    · simp only [Vector3.Dot, Vector3.sub_x, Vector3.sub_y, Vector3.sub_z] at hN ⊢
      have hSe : n.LengthSq = n.x * n.x + n.y * n.y + n.z * n.z := rfl
      field_simp
      rw [hSe]
      linear_combination (n.x * n.x + n.y * n.y + n.z * n.z) * hN
    · show Vector3.sub _ _ = _
      simp only [Vector3.sub, sub_sub_cancel]
    · have hl0 : l ≠ 0 := hl.ne'
      have hsq : |N| * |N| = N * N := abs_mul_abs_self N
      simp only [distSq, Vector3.LengthSq, Vector3.sub_x, Vector3.sub_y, Vector3.sub_z,
        sub_sub_cancel]
      have hSe : n.x * n.x + n.y * n.y + n.z * n.z = n.LengthSq := rfl
      rw [div_mul_div_comm, hsq, hll]
      calc N / n.LengthSq * n.x * (N / n.LengthSq * n.x)
            + N / n.LengthSq * n.y * (N / n.LengthSq * n.y)
            + N / n.LengthSq * n.z * (N / n.LengthSq * n.z)
          = N / n.LengthSq * (N / n.LengthSq) * (n.x * n.x + n.y * n.y + n.z * n.z) := by ring
        _ = N / n.LengthSq * (N / n.LengthSq) * n.LengthSq := by rw [hSe]
        _ = N * N / n.LengthSq := by field_simp; ring
  · rw [div_eq_zero_iff, abs_eq_zero]
    constructor
    · intro h
      have hN : ((p1 - p2).Cross (p1 - p3)).Dot (p4 - p1) = 0 := by
        rcases h with h | h
        · exact h
        · exact absurd h hl.ne'
      have hSe : ((p1 - p2).Cross (p1 - p3)).LengthSq ≠ 0 := hS.ne'
      refine ⟨((p4 - p1).Cross (p3 - p1)).Dot ((p1 - p2).Cross (p1 - p3))
          / ((p1 - p2).Cross (p1 - p3)).LengthSq,
        ((p2 - p1).Cross (p4 - p1)).Dot ((p1 - p2).Cross (p1 - p3))
          / ((p1 - p2).Cross (p1 - p3)).LengthSq, ?_, ?_, ?_⟩
      all_goals
        field_simp
        simp only [Vector3.Dot, Vector3.Cross, Vector3.LengthSq, Vector3.sub_x, Vector3.sub_y,
          Vector3.sub_z] at hN ⊢
      · linear_combination ((p1.y - p2.y) * (p1.z - p3.z) - (p1.z - p2.z) * (p1.y - p3.y)) * hN
      · linear_combination ((p1.z - p2.z) * (p1.x - p3.x) - (p1.x - p2.x) * (p1.z - p3.z)) * hN
      · linear_combination ((p1.x - p2.x) * (p1.y - p3.y) - (p1.y - p2.y) * (p1.x - p3.x)) * hN
    · rintro ⟨a, b, hx, hy, hz⟩
      left
      simp only [Vector3.Dot, Vector3.Cross, Vector3.sub_x, Vector3.sub_y, Vector3.sub_z]
      rw [hx, hy, hz]
      ring

/-- Witness of C11: the plane `z = 0` through `(0,0,0)`, `(1,0,0)`, `(0,1,0)` and
the point `(0,0,2)`. -/
theorem PointToPlaneDistance_perpendicular_witness :
    ((⟨0, 0, 0⟩ : Vector3 ℝ) - ⟨1, 0, 0⟩).Cross ((⟨0, 0, 0⟩ : Vector3 ℝ) - ⟨0, 1, 0⟩)
      ≠ ⟨0, 0, 0⟩ ∧
    ∃ d, PointToPlaneDistance Real.sqrt (⟨0, 0, 0⟩ : Vector3 ℝ) ⟨1, 0, 0⟩ ⟨0, 1, 0⟩ ⟨0, 0, 2⟩
        = some d ∧
      d = |(((⟨0, 0, 0⟩ : Vector3 ℝ) - ⟨1, 0, 0⟩).Cross
            ((⟨0, 0, 0⟩ : Vector3 ℝ) - ⟨0, 1, 0⟩)).Dot ((⟨0, 0, 2⟩ : Vector3 ℝ) - ⟨0, 0, 0⟩)|
        / (((⟨0, 0, 0⟩ : Vector3 ℝ) - ⟨1, 0, 0⟩).Cross
            ((⟨0, 0, 0⟩ : Vector3 ℝ) - ⟨0, 1, 0⟩)).Length Real.sqrt ∧
      0 ≤ d := by
  have hn : ((⟨0, 0, 0⟩ : Vector3 ℝ) - ⟨1, 0, 0⟩).Cross ((⟨0, 0, 0⟩ : Vector3 ℝ) - ⟨0, 1, 0⟩)
      ≠ ⟨0, 0, 0⟩ := by
    simp [Vector3.Cross]
  obtain ⟨d, h1, h2, -, h3, -⟩ := PointToPlaneDistance_perpendicular (⟨0, 0, 0⟩ : Vector3 ℝ)
    ⟨1, 0, 0⟩ ⟨0, 1, 0⟩ ⟨0, 0, 2⟩ hn
  exact ⟨hn, d, h1, h2, h3⟩

/-- The `case 3` branch of `IsAcceptableSample`, with its gate named. -/
theorem IsAcceptableSample_three_eq {α : Type} [LinearOrderedField α] {Q : Type}
    (L : MathLib α Q) (s : MagCalibration α Q) (q : Q) (m : Vector3 α)
    (h3 : s.SampleCount = 3) :
    IsAcceptableSample L s q m =
      (decide (L.DistanceSq q s.QuatSamples.at0 > s.MinQuatDistanceSq) &&
        decide (L.DistanceSq q s.QuatSamples.at1 > s.MinQuatDistanceSq) &&
        decide (L.DistanceSq q s.QuatSamples.at2 > s.MinQuatDistanceSq) &&
        planeGate L.sqrt s.MagSamples.at0 s.MagSamples.at1 s.MagSamples.at2 m
          s.MinMagDistance) := by
  simp only [IsAcceptableSample, h3, planeGate]

end PlaneDistanceClaims

section CoplanarScenario

/-- Over the reals, a point in the plane of three non-collinear points is at
plane distance `0`. -/
theorem PointToPlaneDistance_in_plane (p1 p2 p3 p4 : Vector3 ℝ)
    (hS : 0 < ((p1 - p2).Cross (p1 - p3)).LengthSq)
    (hN : ((p1 - p2).Cross (p1 - p3)).Dot p4 - ((p1 - p2).Cross (p1 - p3)).Dot p1 = 0) :
    PointToPlaneDistance Real.sqrt p1 p2 p3 p4 = some 0 := by
  have hl : ((p1 - p2).Cross (p1 - p3)).Length Real.sqrt ≠ 0 := (Real.sqrt_pos.mpr hS).ne'
  rw [PointToPlaneDistance_of_ne Real.sqrt p1 p2 p3 p4 hl, hN, zero_div, abs_zero]

/-- Over the reals, the plane distance to three collinear points is undefined. -/
theorem PointToPlaneDistance_collinear (p1 p2 p3 p4 : Vector3 ℝ)
    (hS : ((p1 - p2).Cross (p1 - p3)).LengthSq = 0) :
    PointToPlaneDistance Real.sqrt p1 p2 p3 p4 = none := by
  apply PointToPlaneDistance_of_eq
  unfold Vector3.Length
  rw [hS, Real.sqrt_zero]

/-- C13, amended: with stored fields `(0,0,0)`, `(1,0,0)`, `(0,1,0)` and the
candidate field `(1/2, 1/2, 0)`, the three plane-distance tests in which the
candidate, `MagSamples[1]` or `MagSamples[2]` is `p4` evaluate to `0`; the test
in which `MagSamples[0]` is `p4` has no value, its plane points `(1,0,0)`,
`(0,1,0)`, `(1/2,1/2,0)` being collinear; and with a non-negative
`MinMagDistance` the candidate is rejected for every candidate orientation,
every stored orientations and every math library. -/
theorem coplanar_candidate_rejected {Q : Type} (L : MathLib ℝ Q) (s : MagCalibration ℝ Q)
    (q : Q) (h3 : s.SampleCount = 3) (h0 : s.MagSamples.at0 = ⟨0, 0, 0⟩)
    (h1 : s.MagSamples.at1 = ⟨1, 0, 0⟩) (h2 : s.MagSamples.at2 = ⟨0, 1, 0⟩)
    (ht : 0 ≤ s.MinMagDistance) :
    PointToPlaneDistance Real.sqrt s.MagSamples.at0 s.MagSamples.at1 s.MagSamples.at2
      ⟨1 / 2, 1 / 2, 0⟩ = some 0 ∧
    PointToPlaneDistance Real.sqrt s.MagSamples.at1 s.MagSamples.at2 ⟨1 / 2, 1 / 2, 0⟩
      s.MagSamples.at0 = none ∧
    PointToPlaneDistance Real.sqrt s.MagSamples.at2 ⟨1 / 2, 1 / 2, 0⟩ s.MagSamples.at0
      s.MagSamples.at1 = some 0 ∧
    PointToPlaneDistance Real.sqrt ⟨1 / 2, 1 / 2, 0⟩ s.MagSamples.at0 s.MagSamples.at1
      s.MagSamples.at2 = some 0 ∧
    IsAcceptableSample L s q ⟨1 / 2, 1 / 2, 0⟩ = false := by
  refine ⟨?_, ?_, ?_, ?_, ?_⟩
  · rw [h0, h1, h2]
    apply PointToPlaneDistance_in_plane <;>
      norm_num [Vector3.Cross, Vector3.LengthSq, Vector3.Dot]
  · rw [h0, h1, h2]
    apply PointToPlaneDistance_collinear
    norm_num [Vector3.Cross, Vector3.LengthSq]
  · rw [h0, h1, h2]
    apply PointToPlaneDistance_in_plane <;>
      norm_num [Vector3.Cross, Vector3.LengthSq, Vector3.Dot]
  · rw [h0, h1, h2]
    apply PointToPlaneDistance_in_plane <;>
      norm_num [Vector3.Cross, Vector3.LengthSq, Vector3.Dot]
  · cases hacc : IsAcceptableSample L s q ⟨1 / 2, 1 / 2, 0⟩
    · rfl
    · exfalso
      apply accept_fourth_m11_ne L s q ⟨1 / 2, 1 / 2, 0⟩ h3 ht hacc
      rw [h0, h1, h2]
      norm_num [m11, fillRows_det]

/-- Witness of C13, amended: the example calibrator with three samples and
threshold `1/2`. -/
theorem coplanar_candidate_rejected_witness :
    (exampleCalibration ℝ 3 Mag_AutoCalibrating (1 / 2)).SampleCount = 3 ∧
    (exampleCalibration ℝ 3 Mag_AutoCalibrating (1 / 2)).MagSamples.at0 = ⟨0, 0, 0⟩ ∧
    (exampleCalibration ℝ 3 Mag_AutoCalibrating (1 / 2)).MagSamples.at1 = ⟨1, 0, 0⟩ ∧
    (exampleCalibration ℝ 3 Mag_AutoCalibrating (1 / 2)).MagSamples.at2 = ⟨0, 1, 0⟩ ∧
    (0 : ℝ) ≤ (exampleCalibration ℝ 3 Mag_AutoCalibrating (1 / 2)).MinMagDistance ∧
    PointToPlaneDistance Real.sqrt
      (exampleCalibration ℝ 3 Mag_AutoCalibrating (1 / 2)).MagSamples.at1
      (exampleCalibration ℝ 3 Mag_AutoCalibrating (1 / 2)).MagSamples.at2 ⟨1 / 2, 1 / 2, 0⟩
      (exampleCalibration ℝ 3 Mag_AutoCalibrating (1 / 2)).MagSamples.at0 = none ∧
    IsAcceptableSample (exampleLib ℝ Real.sqrt)
      (exampleCalibration ℝ 3 Mag_AutoCalibrating (1 / 2)) 3 ⟨1 / 2, 1 / 2, 0⟩ = false := by
  have ht : (0 : ℝ) ≤ (exampleCalibration ℝ 3 Mag_AutoCalibrating (1 / 2)).MinMagDistance := by
    norm_num [exampleCalibration]
  obtain ⟨-, hnone, -, -, hrej⟩ := coplanar_candidate_rejected (exampleLib ℝ Real.sqrt)
    (exampleCalibration ℝ 3 Mag_AutoCalibrating (1 / 2)) 3 rfl rfl rfl rfl ht
  exact ⟨rfl, rfl, rfl, rfl, ht, hnone, hrej⟩

/-- C13 as stated fails twice.  The second plane-distance test, of
`MagSamples[0] = (0,0,0)` against the plane through `(1,0,0)`, `(0,1,0)`,
`(1/2,1/2,0)`, does not evaluate to `0`: the three points are collinear and the
normal cannot be normalized.  And with the threshold `MinMagDistance = -1` the
candidate at orientation `3` is accepted. -/
theorem coplanar_candidate_not_all_zero :
    PointToPlaneDistance Real.sqrt (⟨1, 0, 0⟩ : Vector3 ℝ) ⟨0, 1, 0⟩ ⟨1 / 2, 1 / 2, 0⟩
      ⟨0, 0, 0⟩ = none ∧
    (exampleCalibration ℝ 3 Mag_AutoCalibrating (-1)).SampleCount = 3 ∧
    (exampleCalibration ℝ 3 Mag_AutoCalibrating (-1)).MagSamples.at0 = ⟨0, 0, 0⟩ ∧
    (exampleCalibration ℝ 3 Mag_AutoCalibrating (-1)).MagSamples.at1 = ⟨1, 0, 0⟩ ∧
    (exampleCalibration ℝ 3 Mag_AutoCalibrating (-1)).MagSamples.at2 = ⟨0, 1, 0⟩ ∧
    IsAcceptableSample (exampleLib ℝ Real.sqrt) (exampleCalibration ℝ 3 Mag_AutoCalibrating (-1))
      3 ⟨1 / 2, 1 / 2, 0⟩ = true := by
  refine ⟨?_, rfl, rfl, rfl, rfl, ?_⟩
  · apply PointToPlaneDistance_collinear
    norm_num [Vector3.Cross, Vector3.LengthSq]
  · have h1 : PointToPlaneDistance Real.sqrt (⟨0, 0, 0⟩ : Vector3 ℝ) ⟨1, 0, 0⟩ ⟨0, 1, 0⟩
        ⟨1 / 2, 1 / 2, 0⟩ = some 0 := by
      apply PointToPlaneDistance_in_plane <;>
        norm_num [Vector3.Cross, Vector3.LengthSq, Vector3.Dot]
    rw [IsAcceptableSample_three_eq _ _ _ _ rfl]
    simp only [planeGate, exampleCalibration, exampleLib, h1, exceeds]
    norm_num

end CoplanarScenario

section SymmetryClaims

variable {α : Type} [LinearOrderedField α] {Q : Type}

@[simp] theorem Vector3.add_x (a b : Vector3 α) : (a + b).x = a.x + b.x := rfl

@[simp] theorem Vector3.add_y (a b : Vector3 α) : (a + b).y = a.y + b.y := rfl

@[simp] theorem Vector3.add_z (a b : Vector3 α) : (a + b).z = a.z + b.z := rfl

/-- The determinant `m11` does not change when the four points are shifted by `t`. -/
theorem m11_shift (p1 p2 p3 p4 t : Vector3 α) :
    m11 (p1 + t) (p2 + t) (p3 + t) (p4 + t) = m11 p1 p2 p3 p4 := by
  simp only [m11, fillRows_det, Vector3.add_x, Vector3.add_y, Vector3.add_z]
  ring

/-- The determinant `m12` of the shifted points. -/
theorem m12_shift (p1 p2 p3 p4 t : Vector3 α) :
    m12 (p1 + t) (p2 + t) (p3 + t) (p4 + t) = m12 p1 p2 p3 p4 + 2 * t.x * m11 p1 p2 p3 p4 := by
  simp only [m11, m12, fillRows_det, sqNorm, Vector3.add_x, Vector3.add_y, Vector3.add_z]
  ring

/-- The determinant `m13` of the shifted points. -/
theorem m13_shift (p1 p2 p3 p4 t : Vector3 α) :
    m13 (p1 + t) (p2 + t) (p3 + t) (p4 + t) = m13 p1 p2 p3 p4 - 2 * t.y * m11 p1 p2 p3 p4 := by
  simp only [m11, m13, fillRows_det, sqNorm, Vector3.add_x, Vector3.add_y, Vector3.add_z]
  ring

/-- The determinant `m14` of the shifted points. -/
theorem m14_shift (p1 p2 p3 p4 t : Vector3 α) :
    m14 (p1 + t) (p2 + t) (p3 + t) (p4 + t) = m14 p1 p2 p3 p4 + 2 * t.z * m11 p1 p2 p3 p4 := by
  simp only [m11, m14, fillRows_det, sqNorm, Vector3.add_x, Vector3.add_y, Vector3.add_z]
  ring

/-- C19: the sphere center is translation-equivariant.  For every four points
with `m11 ≠ 0` and every offset `t`, the determinant `m11` of the shifted
points equals that of the original points, and `CalculateSphereCenter` of the
shifted points is `CalculateSphereCenter` of the original points plus `t`. -/
theorem CalculateSphereCenter_shift (p1 p2 p3 p4 t : Vector3 α) (h : m11 p1 p2 p3 p4 ≠ 0) :
    m11 (p1 + t) (p2 + t) (p3 + t) (p4 + t) = m11 p1 p2 p3 p4 ∧
    ∃ c, CalculateSphereCenter p1 p2 p3 p4 = some c ∧
      CalculateSphereCenter (p1 + t) (p2 + t) (p3 + t) (p4 + t) = some (c + t) := by
  have hs : m11 (p1 + t) (p2 + t) (p3 + t) (p4 + t) ≠ 0 := by
    rw [m11_shift]
    exact h
  refine ⟨m11_shift p1 p2 p3 p4 t, _, CalculateSphereCenter_of_ne p1 p2 p3 p4 h, ?_⟩
  rw [CalculateSphereCenter_of_ne _ _ _ _ hs, m11_shift, m12_shift, m13_shift, m14_shift]
  congr 1
  show _ = Vector3.add _ _
  simp only [Vector3.add, Vector3.mk.injEq]
  refine ⟨?_, ?_, ?_⟩ <;> field_simp <;> ring

/-- Witness of C19: the points `(1,2,3)`, `(-4,1,7)`, `(2,5,-1)`, `(3,3,8)` shifted
by `(10,-20,30)`. -/
theorem CalculateSphereCenter_shift_witness :
    m11 (⟨1, 2, 3⟩ : Vector3 ℚ) ⟨-4, 1, 7⟩ ⟨2, 5, -1⟩ ⟨3, 3, 8⟩ ≠ 0 ∧
    m11 ((⟨1, 2, 3⟩ : Vector3 ℚ) + ⟨10, -20, 30⟩) (⟨-4, 1, 7⟩ + ⟨10, -20, 30⟩)
        (⟨2, 5, -1⟩ + ⟨10, -20, 30⟩) (⟨3, 3, 8⟩ + ⟨10, -20, 30⟩)
      = m11 (⟨1, 2, 3⟩ : Vector3 ℚ) ⟨-4, 1, 7⟩ ⟨2, 5, -1⟩ ⟨3, 3, 8⟩ ∧
    ∃ c, CalculateSphereCenter (⟨1, 2, 3⟩ : Vector3 ℚ) ⟨-4, 1, 7⟩ ⟨2, 5, -1⟩ ⟨3, 3, 8⟩ = some c ∧
      CalculateSphereCenter ((⟨1, 2, 3⟩ : Vector3 ℚ) + ⟨10, -20, 30⟩) (⟨-4, 1, 7⟩ + ⟨10, -20, 30⟩)
        (⟨2, 5, -1⟩ + ⟨10, -20, 30⟩) (⟨3, 3, 8⟩ + ⟨10, -20, 30⟩) = some (c + ⟨10, -20, 30⟩) :=
  ⟨by norm_num [m11, fillRows_det],
    CalculateSphereCenter_shift _ _ _ _ _ (by norm_num [m11, fillRows_det])⟩

/-- The array `p[4]` filled from the values of `p` is `p`. -/
theorem pointArray_apply {β : Type} (p : Fin 4 → Vector3 β) :
    pointArray (p 0) (p 1) (p 2) (p 3) = p := by
  funext i
  fin_cases i <;> rfl

/-- Reordering the four points by `σ` multiplies each determinant of the sphere
fit by the sign of `σ`. -/
theorem fillRows_det_perm (c0 c1 c2 : Vector3 α → α) (p : Fin 4 → Vector3 α)
    (σ : Equiv.Perm (Fin 4)) :
    (fillRows c0 c1 c2 (fun i => p (σ i))).Determinant
      = ((Equiv.Perm.sign σ : ℤ) : α) * (fillRows c0 c1 c2 p).Determinant := by
  rw [Determinant_eq_det, Determinant_eq_det, ← Matrix.det_permute]
  rfl

/-- Reordering the four points of `CalculateSphereCenter` does not change its result. -/
theorem CalculateSphereCenter_reorder (p : Fin 4 → Vector3 α) (σ : Equiv.Perm (Fin 4)) :
    CalculateSphereCenter (p (σ 0)) (p (σ 1)) (p (σ 2)) (p (σ 3))
      = CalculateSphereCenter (p 0) (p 1) (p 2) (p 3) := by
  have h11 := fillRows_det_perm Vector3.x Vector3.y Vector3.z p σ
  have h12 := fillRows_det_perm sqNorm Vector3.y Vector3.z p σ
  have h13 := fillRows_det_perm sqNorm Vector3.x Vector3.z p σ
  have h14 := fillRows_det_perm sqNorm Vector3.x Vector3.y p σ
  have e1 : pointArray (p (σ 0)) (p (σ 1)) (p (σ 2)) (p (σ 3)) = fun i => p (σ i) :=
    pointArray_apply (fun i => p (σ i))
  have e2 := pointArray_apply p
  simp only [CalculateSphereCenter, m11, m12, m13, m14, e1, e2, h11, h12, h13, h14]
  rcases Int.units_eq_one_or (Equiv.Perm.sign σ) with hs | hs
  · simp [hs]
  · simp only [hs, Units.val_neg, Units.val_one, Int.cast_neg, Int.cast_one, neg_mul, one_mul,
      neg_eq_zero]
    by_cases hz : (fillRows Vector3.x Vector3.y Vector3.z p).Determinant = 0
    · simp [hz]
    · simp only [hz, if_false, Option.some.injEq, Vector3.mk.injEq]
      refine ⟨?_, ?_, ?_⟩ <;> field_simp

/-- C17: the sphere center does not depend on the order of the four points.  For
every four points with `m11 ≠ 0` and every permutation `σ` of the four slots,
`CalculateSphereCenter` of the reordered points is `CalculateSphereCenter` of
the points; hence `SetCalibration` computes the same `MagCenter` from a full
buffer and from the buffer holding the same fields in another order. -/
theorem CalculateSphereCenter_order_independent (p1 p2 p3 p4 : Vector3 α)
    (σ : Equiv.Perm (Fin 4)) (h : m11 p1 p2 p3 p4 ≠ 0) :
    ∃ c, CalculateSphereCenter p1 p2 p3 p4 = some c ∧
      CalculateSphereCenter (pointArray p1 p2 p3 p4 (σ 0)) (pointArray p1 p2 p3 p4 (σ 1))
        (pointArray p1 p2 p3 p4 (σ 2)) (pointArray p1 p2 p3 p4 (σ 3)) = some c ∧
      ∀ (s : MagCalibration α Q) (sf : SensorFusion α Q), 4 ≤ s.SampleCount →
        s.MagSamples = ⟨p1, p2, p3, p4⟩ →
        SetCalibration s sf =
          some (true, { s with MagCenter := c, Status := Mag_Calibrated },
            sf.SetMagCalibration (calMat c)) ∧
        SetCalibration { s with MagSamples := s.MagSamples.permute σ } sf =
          some (true, { s with MagSamples := s.MagSamples.permute σ,
                               MagCenter := c, Status := Mag_Calibrated },
            sf.SetMagCalibration (calMat c)) := by
  have hre := CalculateSphereCenter_reorder (pointArray p1 p2 p3 p4) σ
  have hc := CalculateSphereCenter_of_ne p1 p2 p3 p4 h
  change _ = CalculateSphereCenter p1 p2 p3 p4 at hre
  refine ⟨_, hc, hre.trans hc, fun s sf h4 hs => ⟨?_, ?_⟩⟩
  · apply SetCalibration_full s sf _ h4
    rw [hs]
    exact hc
  · have hg : (Array4.get (⟨p1, p2, p3, p4⟩ : Array4 (Vector3 α))) = pointArray p1 p2 p3 p4 := by
      funext i
      fin_cases i <;> rfl
    refine SetCalibration_full { s with MagSamples := s.MagSamples.permute σ } sf _ h4 ?_
    show CalculateSphereCenter (s.MagSamples.get (σ 0)) (s.MagSamples.get (σ 1))
      (s.MagSamples.get (σ 2)) (s.MagSamples.get (σ 3)) = _
    rw [hs, hg]
    exact hre.trans hc

/-- Witness of C17: the points `(1,2,3)`, `(-4,1,7)`, `(2,5,-1)`, `(3,3,8)` with the
first and the last exchanged. -/
theorem CalculateSphereCenter_order_independent_witness :
    m11 (⟨1, 2, 3⟩ : Vector3 ℚ) ⟨-4, 1, 7⟩ ⟨2, 5, -1⟩ ⟨3, 3, 8⟩ ≠ 0 ∧
    ∃ c, CalculateSphereCenter (⟨1, 2, 3⟩ : Vector3 ℚ) ⟨-4, 1, 7⟩ ⟨2, 5, -1⟩ ⟨3, 3, 8⟩ = some c ∧
      CalculateSphereCenter (⟨3, 3, 8⟩ : Vector3 ℚ) ⟨-4, 1, 7⟩ ⟨2, 5, -1⟩ ⟨1, 2, 3⟩ = some c := by
  have h : m11 (⟨1, 2, 3⟩ : Vector3 ℚ) ⟨-4, 1, 7⟩ ⟨2, 5, -1⟩ ⟨3, 3, 8⟩ ≠ 0 := by
    norm_num [m11, fillRows_det]
  obtain ⟨c, h1, h2, -⟩ := CalculateSphereCenter_order_independent (Q := ℚ)
    (⟨1, 2, 3⟩ : Vector3 ℚ) ⟨-4, 1, 7⟩ ⟨2, 5, -1⟩ ⟨3, 3, 8⟩ (Equiv.swap 0 3) h
  exact ⟨h, c, h1, h2⟩

end SymmetryClaims

section PlaneOrderClaims

variable {α : Type} [LinearOrderedField α] {Q : Type}

/-- Two calls of `PointToPlaneDistance` agree when their normals have the same
squared length and their offsets along the normal agree up to sign. -/
theorem PointToPlaneDistance_congr (sqrt : α → α) (a b c d a1 b1 c1 d1 : Vector3 α)
    (hS : ((a1 - b1).Cross (a1 - c1)).LengthSq = ((a - b).Cross (a - c)).LengthSq)
    (hN : ((a1 - b1).Cross (a1 - c1)).Dot d1 - ((a1 - b1).Cross (a1 - c1)).Dot a1
      = -(((a - b).Cross (a - c)).Dot d - ((a - b).Cross (a - c)).Dot a)) :
    PointToPlaneDistance sqrt a1 b1 c1 d1 = PointToPlaneDistance sqrt a b c d := by
  have hL : ((a1 - b1).Cross (a1 - c1)).Length sqrt = ((a - b).Cross (a - c)).Length sqrt := by
    unfold Vector3.Length
    rw [hS]
  by_cases hl : ((a - b).Cross (a - c)).Length sqrt = 0
  · rw [PointToPlaneDistance_of_eq sqrt a b c d hl,
      PointToPlaneDistance_of_eq sqrt a1 b1 c1 d1 (hL.trans hl)]
  · rw [PointToPlaneDistance_of_ne sqrt a b c d hl,
      PointToPlaneDistance_of_ne sqrt a1 b1 c1 d1 (by rw [hL]; exact hl), hN, hL, neg_div,
      abs_neg]

/-- Exchanging the first two plane points does not change the plane distance. -/
theorem PointToPlaneDistance_swap12 (sqrt : α → α) (a b c d : Vector3 α) :
    PointToPlaneDistance sqrt b a c d = PointToPlaneDistance sqrt a b c d := by
  apply PointToPlaneDistance_congr <;>
    simp only [Vector3.LengthSq, Vector3.Dot, Vector3.Cross, Vector3.sub_x, Vector3.sub_y,
      Vector3.sub_z] <;> ring

/-- Exchanging the last two plane points does not change the plane distance. -/
theorem PointToPlaneDistance_swap23 (sqrt : α → α) (a b c d : Vector3 α) :
    PointToPlaneDistance sqrt a c b d = PointToPlaneDistance sqrt a b c d := by
  apply PointToPlaneDistance_congr <;>
    simp only [Vector3.LengthSq, Vector3.Dot, Vector3.Cross, Vector3.sub_x, Vector3.sub_y,
      Vector3.sub_z] <;> ring

/-- The plane distance does not depend on the order of the plane points. -/
theorem PointToPlaneDistance_perm (sqrt : α → α) (p : Fin 3 → Vector3 α) (d : Vector3 α)
    (σ : Equiv.Perm (Fin 3)) :
    PointToPlaneDistance sqrt (p (σ 0)) (p (σ 1)) (p (σ 2)) d
      = PointToPlaneDistance sqrt (p 0) (p 1) (p 2) d := by
  have h01 : σ 0 ≠ σ 1 := fun h => absurd (σ.injective h) (by decide)
  have h02 : σ 0 ≠ σ 2 := fun h => absurd (σ.injective h) (by decide)
  have h12 : σ 1 ≠ σ 2 := fun h => absurd (σ.injective h) (by decide)
  generalize σ 0 = i at h01 h02 ⊢
  generalize σ 1 = j at h01 h12 ⊢
  generalize σ 2 = k at h02 h12 ⊢
  fin_cases i <;> fin_cases j <;> fin_cases k <;>
    first
    | exact absurd rfl h01
    | exact absurd rfl h02
    | exact absurd rfl h12
    | rfl
    | exact PointToPlaneDistance_swap23 sqrt _ _ _ d
    | exact PointToPlaneDistance_swap12 sqrt _ _ _ d
    | exact (PointToPlaneDistance_swap23 sqrt _ _ _ d).trans
        (PointToPlaneDistance_swap12 sqrt _ _ _ d)
    | exact (PointToPlaneDistance_swap12 sqrt _ _ _ d).trans
        (PointToPlaneDistance_swap23 sqrt _ _ _ d)
    | exact (PointToPlaneDistance_swap12 sqrt _ _ _ d).trans
        ((PointToPlaneDistance_swap23 sqrt _ _ _ d).trans
          (PointToPlaneDistance_swap12 sqrt _ _ _ d))

/-- The coplanarity gate does not change when the first two stored fields are exchanged. -/
theorem planeGate_swap12 (sqrt : α → α) (a b c m : Vector3 α) (t : α) :
    planeGate sqrt b a c m t = planeGate sqrt a b c m t := by
  have e1 := PointToPlaneDistance_swap12 sqrt a b c m
  have e2 : PointToPlaneDistance sqrt a c m b = PointToPlaneDistance sqrt c m a b :=
    (PointToPlaneDistance_swap12 sqrt c a m b).trans
      (PointToPlaneDistance_swap23 sqrt c m a b)
  have e3 : PointToPlaneDistance sqrt c m b a = PointToPlaneDistance sqrt b c m a :=
    (PointToPlaneDistance_swap23 sqrt c b m a).trans
      (PointToPlaneDistance_swap12 sqrt b c m a)
  have e4 := PointToPlaneDistance_swap23 sqrt m a b c
  simp only [planeGate, e1, e2, e3, e4]
  cases exceeds (PointToPlaneDistance sqrt a b c m) t <;>
    cases exceeds (PointToPlaneDistance sqrt c m a b) t <;>
    cases exceeds (PointToPlaneDistance sqrt b c m a) t <;> rfl

/-- The coplanarity gate does not change when the last two stored fields are exchanged. -/
theorem planeGate_swap23 (sqrt : α → α) (a b c m : Vector3 α) (t : α) :
    planeGate sqrt a c b m t = planeGate sqrt a b c m t := by
  have e1 := PointToPlaneDistance_swap23 sqrt a b c m
  have e2 : PointToPlaneDistance sqrt c b m a = PointToPlaneDistance sqrt b c m a :=
    PointToPlaneDistance_swap12 sqrt b c m a
  have e3 : PointToPlaneDistance sqrt b m a c = PointToPlaneDistance sqrt m a b c :=
    (PointToPlaneDistance_swap12 sqrt m b a c).trans (PointToPlaneDistance_swap23 sqrt m a b c)
  have e4 : PointToPlaneDistance sqrt m a c b = PointToPlaneDistance sqrt c m a b :=
    (PointToPlaneDistance_swap12 sqrt a m c b).trans
      ((PointToPlaneDistance_swap23 sqrt a c m b).trans
        ((PointToPlaneDistance_swap12 sqrt c a m b).trans
          (PointToPlaneDistance_swap23 sqrt c m a b)))
  simp only [planeGate, e1, e2, e3, e4]
  cases exceeds (PointToPlaneDistance sqrt a b c m) t <;>
    cases exceeds (PointToPlaneDistance sqrt c m a b) t <;>
    cases exceeds (PointToPlaneDistance sqrt b c m a) t <;>
    cases exceeds (PointToPlaneDistance sqrt m a b c) t <;> rfl

/-- The `case 3` decision computed from the stored samples of three distinct
slots `i`, `j`, `k` among `0..2` is the one computed from the slots `0`, `1`, `2`. -/
theorem three_slots_decision (L : MathLib α Q) (s : MagCalibration α Q) (q : Q) (m : Vector3 α)
    (i j k : Fin 4) (h01 : i ≠ j) (h02 : i ≠ k) (h12 : j ≠ k) (h03 : i ≠ 3) (h13 : j ≠ 3)
    (h23 : k ≠ 3) :
    (decide (L.DistanceSq q (s.QuatSamples.get i) > s.MinQuatDistanceSq) &&
        decide (L.DistanceSq q (s.QuatSamples.get j) > s.MinQuatDistanceSq) &&
        decide (L.DistanceSq q (s.QuatSamples.get k) > s.MinQuatDistanceSq) &&
        planeGate L.sqrt (s.MagSamples.get i) (s.MagSamples.get j) (s.MagSamples.get k) m
          s.MinMagDistance) =
      (decide (L.DistanceSq q s.QuatSamples.at0 > s.MinQuatDistanceSq) &&
        decide (L.DistanceSq q s.QuatSamples.at1 > s.MinQuatDistanceSq) &&
        decide (L.DistanceSq q s.QuatSamples.at2 > s.MinQuatDistanceSq) &&
        planeGate L.sqrt s.MagSamples.at0 s.MagSamples.at1 s.MagSamples.at2 m
          s.MinMagDistance) := by
  fin_cases i <;> fin_cases j <;> fin_cases k <;>
    first
    | exact absurd rfl h01
    | exact absurd rfl h02
    | exact absurd rfl h12
    | exact absurd rfl h03
    | exact absurd rfl h13
    | exact absurd rfl h23
    | rfl
    | (simp only [Array4.get]
       first
       | (rw [planeGate_swap23 L.sqrt s.MagSamples.at0 s.MagSamples.at1 s.MagSamples.at2]
          ac_rfl)
       | (rw [planeGate_swap12 L.sqrt s.MagSamples.at0 s.MagSamples.at1 s.MagSamples.at2]
          ac_rfl)
       | (rw [planeGate_swap23 L.sqrt s.MagSamples.at1 s.MagSamples.at0 s.MagSamples.at2,
            planeGate_swap12 L.sqrt s.MagSamples.at0 s.MagSamples.at1 s.MagSamples.at2]
          ac_rfl)
       | (rw [planeGate_swap12 L.sqrt s.MagSamples.at0 s.MagSamples.at2 s.MagSamples.at1,
            planeGate_swap23 L.sqrt s.MagSamples.at0 s.MagSamples.at1 s.MagSamples.at2]
          ac_rfl)
       | (rw [planeGate_swap12 L.sqrt s.MagSamples.at1 s.MagSamples.at2 s.MagSamples.at0,
            planeGate_swap23 L.sqrt s.MagSamples.at1 s.MagSamples.at0 s.MagSamples.at2,
            planeGate_swap12 L.sqrt s.MagSamples.at0 s.MagSamples.at1 s.MagSamples.at2]
          ac_rfl))

/-- C20: `PointToPlaneDistance` does not depend on the order of the three
plane-defining points: for every permutation `σ` of the three points and every
`p4` the result is the same (for any square-root function, and also where it is
undefined).  Hence with three stored samples the decision of
`IsAcceptableSample` is the same when the three stored samples occupy the slots
`0..2` in another order. -/
theorem PointToPlaneDistance_order_independent (L : MathLib α Q) (p : Fin 3 → Vector3 α)
    (p4 : Vector3 α) (σ : Equiv.Perm (Fin 3)) (s : MagCalibration α Q) (q : Q) (m : Vector3 α)
    (τ : Equiv.Perm (Fin 4)) (h3 : s.SampleCount = 3) (hτ : τ 3 = 3) :
    PointToPlaneDistance L.sqrt (p (σ 0)) (p (σ 1)) (p (σ 2)) p4
      = PointToPlaneDistance L.sqrt (p 0) (p 1) (p 2) p4 ∧
    IsAcceptableSample L
        { s with MagSamples := s.MagSamples.permute τ, QuatSamples := s.QuatSamples.permute τ }
        q m
      = IsAcceptableSample L s q m := by
  refine ⟨PointToPlaneDistance_perm L.sqrt p p4 σ, ?_⟩
  rw [IsAcceptableSample_three_eq L s q m h3,
    IsAcceptableSample_three_eq L
      { s with MagSamples := s.MagSamples.permute τ, QuatSamples := s.QuatSamples.permute τ }
      q m h3]
  exact three_slots_decision L s q m (τ 0) (τ 1) (τ 2)
    (fun h => absurd (τ.injective h) (by decide))
    (fun h => absurd (τ.injective h) (by decide))
    (fun h => absurd (τ.injective h) (by decide))
    (fun h => absurd (τ.injective (h.trans hτ.symm)) (by decide))
    (fun h => absurd (τ.injective (h.trans hτ.symm)) (by decide))
    (fun h => absurd (τ.injective (h.trans hτ.symm)) (by decide))

/-- Witness of C20: the plane points `(0,0,0)`, `(1,0,0)`, `(0,1,0)` with the first
and the last exchanged, and the example calibrator with three samples, its
first two slots exchanged. -/
theorem PointToPlaneDistance_order_independent_witness :
    (exampleCalibration ℚ 3 Mag_AutoCalibrating (1 / 2)).SampleCount = 3 ∧
    (Equiv.swap (0 : Fin 4) 1) 3 = 3 ∧
    PointToPlaneDistance (exampleLib ℚ Rat.sqrt).sqrt
        ((![⟨0, 0, 0⟩, ⟨1, 0, 0⟩, ⟨0, 1, 0⟩] : Fin 3 → Vector3 ℚ) (Equiv.swap (0 : Fin 3) 2 0))
        ((![⟨0, 0, 0⟩, ⟨1, 0, 0⟩, ⟨0, 1, 0⟩] : Fin 3 → Vector3 ℚ) (Equiv.swap (0 : Fin 3) 2 1))
        ((![⟨0, 0, 0⟩, ⟨1, 0, 0⟩, ⟨0, 1, 0⟩] : Fin 3 → Vector3 ℚ) (Equiv.swap (0 : Fin 3) 2 2))
        ⟨0, 0, 2⟩
      = PointToPlaneDistance (exampleLib ℚ Rat.sqrt).sqrt
        ((![⟨0, 0, 0⟩, ⟨1, 0, 0⟩, ⟨0, 1, 0⟩] : Fin 3 → Vector3 ℚ) 0)
        ((![⟨0, 0, 0⟩, ⟨1, 0, 0⟩, ⟨0, 1, 0⟩] : Fin 3 → Vector3 ℚ) 1)
        ((![⟨0, 0, 0⟩, ⟨1, 0, 0⟩, ⟨0, 1, 0⟩] : Fin 3 → Vector3 ℚ) 2)
        ⟨0, 0, 2⟩ ∧
    IsAcceptableSample (exampleLib ℚ Rat.sqrt)
        { exampleCalibration ℚ 3 Mag_AutoCalibrating (1 / 2) with
          MagSamples := (exampleCalibration ℚ 3 Mag_AutoCalibrating (1 / 2)).MagSamples.permute
            (Equiv.swap 0 1),
          QuatSamples := (exampleCalibration ℚ 3 Mag_AutoCalibrating (1 / 2)).QuatSamples.permute
            (Equiv.swap 0 1) } 3 ⟨0, 0, 2⟩
      = IsAcceptableSample (exampleLib ℚ Rat.sqrt)
        (exampleCalibration ℚ 3 Mag_AutoCalibrating (1 / 2)) 3 ⟨0, 0, 2⟩ :=
  ⟨rfl, by decide,
    PointToPlaneDistance_order_independent (exampleLib ℚ Rat.sqrt)
      ![⟨0, 0, 0⟩, ⟨1, 0, 0⟩, ⟨0, 1, 0⟩] ⟨0, 0, 2⟩ (Equiv.swap 0 2)
      (exampleCalibration ℚ 3 Mag_AutoCalibrating (1 / 2)) 3 ⟨0, 0, 2⟩ (Equiv.swap 0 1) rfl
      (by decide)⟩

end PlaneOrderClaims

end OVR.Util
